/-
  Verification of the interactive-classroom backend core against its
  natural-language specification.

  The Python source is shallowly embedded: each Python function that a claim
  depends on is translated into a Lean definition of the same name (module
  paths become namespaces), database tables become lists of row structures,
  `datetime.now()` becomes an explicit `now : Int` parameter (seconds), and
  functions that raise become `Except String` values.  All definitions are
  executable.
-/
import Mathlib

set_option linter.unusedVariables false

namespace Classroom

deriving instance DecidableEq for Except

/-! ## JSON-like settings documents (Python `Dict[str, Any]`)

`JVal` models the JSON values stored in settings columns.  Objects are
association lists in insertion order, mirroring Python dict semantics
(lookup finds the unique binding; assignment updates in place or appends). -/

inductive JVal where
  | str (s : String)
  | num (n : Int)
  | boolean (b : Bool)
  | null
  | arr (xs : List JVal)
  | obj (fields : List (String × JVal))

/-- Python `key in d` / `d[key]` on a dict rendered as an association list. -/
def dictGet (l : List (String × JVal)) (k : String) : Option JVal :=
  match l with
  | [] => none
  | (k', v) :: rest => if k' = k then some v else dictGet rest k

/-- Python `d[key] = v`: update the existing binding in place, else append. -/
def dictSet (l : List (String × JVal)) (k : String) (v : JVal) : List (String × JVal) :=
  match l with
  | [] => [(k, v)]
  | (k', v') :: rest => if k' = k then (k', v) :: rest else (k', v') :: dictSet rest k v

/-! ## utils/settings.py -/

mutual
/-- `merge_settings` (src/utils/settings.py, lines 43-70), main loop: start from a
copy of `template` and fold over `custom`'s items, assigning each key. -/
def merge_settings (template : List (String × JVal)) :
    List (String × JVal) → List (String × JVal)
  | [] => template
  | (k, v) :: rest =>
      merge_settings (dictSet template k (merge_value (dictGet template k) v)) rest
termination_by c => sizeOf c
decreasing_by
  · simp only [Prod.mk.sizeOf_spec, List.cons.sizeOf_spec]; omega
  · simp only [List.cons.sizeOf_spec]; omega
/-- The loop body's branch: `if key in merged and isinstance(merged[key], dict)
and isinstance(value, dict)` merge recursively, else override with the custom
value. -/
def merge_value : Option JVal → JVal → JVal
  | some (JVal.obj tFields), JVal.obj vFields => JVal.obj (merge_settings tFields vFields)
  | _, v => v
termination_by tv v => sizeOf v
decreasing_by
  simp only [JVal.obj.sizeOf_spec]; omega
end

/-- `merge_settings` entry point including the `if not custom` guard
(`None` and the empty dict both return a copy of the template). -/
def merge_settings_py (template : List (String × JVal)) :
    Option (List (String × JVal)) → List (String × JVal)
  | none => template
  | some [] => template
  | some c => merge_settings template c

mutual
/-- Python dicts have unique keys; `dictWF` states this recursively for every
object nested inside a value (decidably, so witnesses can evaluate it). -/
def dictWF : JVal → Bool
  | JVal.obj fields => decide ((fields.map Prod.fst).Nodup) && dictFieldsWF fields
  | _ => true
/-- Unique-key well-formedness for each value of an object's field list. -/
def dictFieldsWF : List (String × JVal) → Bool
  | [] => true
  | (_, v) :: rest => dictWF v && dictFieldsWF rest
end

/-- Well-formedness of a top-level settings dict: unique keys, recursively. -/
def dictListWF (fields : List (String × JVal)) : Bool :=
  dictWF (JVal.obj fields)

mutual
/-- The spec's recursive agreement property, written from its words: the merge
result `m` agrees with the override `c` on every key present in `c`
(recursively for nested dict values) and with the template `t` on every key
absent from `c`. -/
inductive Agrees : List (String × JVal) → List (String × JVal) → List (String × JVal) → Prop where
  | step {t c m : List (String × JVal)} :
      (∀ k, dictGet c k = none → dictGet m k = dictGet t k) →
      (∀ k v, dictGet c k = some v → MergedAt (dictGet t k) v (dictGet m k)) →
      Agrees t c m
/-- Value-level agreement at one key: nested dicts merge recursively, any
other combination is fully replaced by the override value. -/
inductive MergedAt : Option JVal → JVal → Option JVal → Prop where
  | nested {tf vf mf : List (String × JVal)} :
      Agrees tf vf mf →
      MergedAt (some (JVal.obj tf)) (JVal.obj vf) (some (JVal.obj mf))
  | replaced {tv : Option JVal} {v : JVal} :
      (∀ tf vf, ¬(tv = some (JVal.obj tf) ∧ v = JVal.obj vf)) →
      MergedAt tv v (some v)
end

theorem dictGet_dictSet_self (l : List (String × JVal)) (k : String) (v : JVal) :
    dictGet (dictSet l k v) k = some v := by
  induction l with
  | nil => simp [dictSet, dictGet]
  | cons p rest ih =>
      obtain ⟨k', v'⟩ := p
      by_cases h : k' = k
      · simp [dictSet, dictGet, h]
      · simp [dictSet, dictGet, h, ih]

theorem dictGet_dictSet_ne (l : List (String × JVal)) (k k' : String) (v : JVal)
    (h : k' ≠ k) : dictGet (dictSet l k v) k' = dictGet l k' := by
  induction l with
  | nil =>
      show dictGet [(k, v)] k' = none
      rw [dictGet, if_neg (fun hh => h hh.symm)]
      rfl
  | cons p rest ih =>
      obtain ⟨k₀, v₀⟩ := p
      by_cases h0 : k₀ = k
      · subst h0
        rw [dictSet, if_pos rfl]
        simp only [dictGet]
        rw [if_neg (fun hh : k₀ = k' => h hh.symm)]
        rw [if_neg (fun hh : k₀ = k' => h hh.symm)]
      · rw [dictSet, if_neg h0]
        simp only [dictGet]
        by_cases h1 : k₀ = k'
        · rw [if_pos h1, if_pos h1]
        · rw [if_neg h1, if_neg h1]
          exact ih

theorem dictGet_eq_none_of_not_mem (l : List (String × JVal)) (k : String)
    (h : k ∉ l.map Prod.fst) : dictGet l k = none := by
  induction l with
  | nil => rfl
  | cons p rest ih =>
      obtain ⟨k', v'⟩ := p
      rw [List.map_cons, List.mem_cons] at h
      push_neg at h
      rw [dictGet, if_neg (fun hh => h.1 hh.symm)]
      exact ih h.2

theorem dictGet_mem (l : List (String × JVal)) (k : String) (v : JVal)
    (h : dictGet l k = some v) : (k, v) ∈ l := by
  induction l with
  | nil => simp [dictGet] at h
  | cons p rest ih =>
      obtain ⟨k', v'⟩ := p
      rw [dictGet] at h
      by_cases h0 : k' = k
      · rw [if_pos h0] at h
        cases h
        subst h0
        exact List.mem_cons_self _ _
      · rw [if_neg h0] at h
        exact List.mem_cons_of_mem _ (ih h)

theorem dictFieldsWF_iff (fields : List (String × JVal)) :
    dictFieldsWF fields = true ↔ ∀ p ∈ fields, dictWF p.2 = true := by
  induction fields with
  | nil => simp [dictFieldsWF]
  | cons p rest ih =>
      obtain ⟨k, v⟩ := p
      rw [dictFieldsWF, Bool.and_eq_true, ih]
      constructor
      · rintro ⟨h1, h2⟩ q hq
        rcases List.mem_cons.mp hq with h | h
        · subst h; exact h1
        · exact h2 q h
      · intro h
        exact ⟨h (k, v) (List.mem_cons_self _ _),
          fun q hq => h q (List.mem_cons_of_mem _ hq)⟩

theorem dictWF_obj_iff (fields : List (String × JVal)) :
    dictWF (JVal.obj fields) = true ↔
      (fields.map Prod.fst).Nodup ∧ ∀ p ∈ fields, dictWF p.2 = true := by
  rw [dictWF, Bool.and_eq_true, decide_eq_true_iff, dictFieldsWF_iff]

theorem dictListWF_tail (k : String) (v : JVal) (rest : List (String × JVal))
    (h : dictListWF ((k, v) :: rest) = true) : dictListWF rest = true := by
  unfold dictListWF at h ⊢
  rw [dictWF_obj_iff] at h ⊢
  refine ⟨?_, fun q hq => h.2 q (List.mem_cons_of_mem _ hq)⟩
  have := h.1
  rw [List.map_cons] at this
  exact (List.nodup_cons.mp this).2

theorem dictWF_of_dictGet (c : List (String × JVal)) (k : String) (v : JVal)
    (hwf : dictListWF c = true) (hget : dictGet c k = some v) : dictWF v = true := by
  unfold dictListWF at hwf
  rw [dictWF_obj_iff] at hwf
  exact hwf.2 (k, v) (dictGet_mem _ _ _ hget)

theorem sizeOf_dictGet_lt (c : List (String × JVal)) (k : String) (v : JVal)
    (hget : dictGet c k = some v) : sizeOf v < sizeOf c := by
  have hmem := dictGet_mem _ _ _ hget
  have := List.sizeOf_lt_of_mem hmem
  simp only [Prod.mk.sizeOf_spec] at this
  omega

/-- Unfolding lemma for the recursive step of the merge loop. -/
theorem merge_settings_cons (t : List (String × JVal)) (k : String) (v : JVal)
    (rest : List (String × JVal)) :
    merge_settings t ((k, v) :: rest) =
      merge_settings (dictSet t k (merge_value (dictGet t k) v)) rest := by
  rw [merge_settings]

/-- The single-key assignment performed by the merge loop satisfies the
value-level agreement relation, assuming the recursive case agrees. -/
theorem mergedAt_step (tv : Option JVal) (v : JVal)
    (hrec : ∀ tf vf, tv = some (JVal.obj tf) → v = JVal.obj vf →
      Agrees tf vf (merge_settings tf vf)) :
    MergedAt tv v (some (merge_value tv v)) := by
  have hobj : ∀ tFields vFields, tv = some (JVal.obj tFields) → v = JVal.obj vFields →
      MergedAt tv v (some (merge_value tv v)) := by
    rintro tFields vFields rfl rfl
    rw [show merge_value (some (JVal.obj tFields)) (JVal.obj vFields) =
        JVal.obj (merge_settings tFields vFields) from by rw [merge_value]]
    exact MergedAt.nested (hrec tFields vFields rfl rfl)
  by_cases hc : ∃ tFields vFields, tv = some (JVal.obj tFields) ∧ v = JVal.obj vFields
  · obtain ⟨tFields, vFields, h1, h2⟩ := hc
    exact hobj tFields vFields h1 h2
  · push_neg at hc
    have hv : merge_value tv v = v := by
      rw [merge_value]
      intro tFields vFields h1 h2
      exact hc tFields vFields h1 h2
    rw [hv]
    exact MergedAt.replaced (fun tf vf h => hc tf vf h.1 h.2)

/-- Core induction: the merge loop realises the spec's agreement property. -/
theorem agrees_merge_settings (n : Nat) :
    ∀ (t c : List (String × JVal)), sizeOf c ≤ n → dictListWF c = true →
      Agrees t c (merge_settings t c) := by
  induction n with
  | zero =>
      intro t c hsz _
      cases c with
      | nil =>
          refine Agrees.step (fun k _ => by rw [merge_settings]) (fun k v hk => ?_)
          simp [dictGet] at hk
      | cons p rest => simp only [List.cons.sizeOf_spec] at hsz; omega
  | succ n ih =>
      intro t c hsz hwf
      cases c with
      | nil =>
          refine Agrees.step (fun k _ => by rw [merge_settings]) (fun k v hk => ?_)
          simp [dictGet] at hk
      | cons p rest =>
          obtain ⟨k, v⟩ := p
          have hwf' : dictListWF rest = true := dictListWF_tail _ _ _ hwf
          have hknotin : k ∉ rest.map Prod.fst := by
            unfold dictListWF at hwf
            rw [dictWF_obj_iff] at hwf
            have := hwf.1
            rw [List.map_cons] at this
            exact (List.nodup_cons.mp this).1
          have hrest_none : dictGet rest k = none := dictGet_eq_none_of_not_mem _ _ hknotin
          have hszrest : sizeOf rest ≤ n := by
            simp only [List.cons.sizeOf_spec] at hsz; omega
          rw [merge_settings_cons]
          have hag := ih (dictSet t k (merge_value (dictGet t k) v)) rest hszrest hwf'
          obtain ⟨habsent, hpresent⟩ := hag
          refine Agrees.step (fun k' hk' => ?_) (fun k' v' hk' => ?_)
          · rw [dictGet] at hk'
            by_cases h : k = k'
            · rw [if_pos h] at hk'
              cases hk'
            · rw [if_neg h] at hk'
              rw [habsent k' hk', dictGet_dictSet_ne _ _ _ _ (fun hh => h hh.symm)]
          · rw [dictGet] at hk'
            by_cases h : k = k'
            · subst h
              rw [if_pos rfl] at hk'
              cases hk'
              rw [habsent k hrest_none, dictGet_dictSet_self]
              refine mergedAt_step _ _ (fun tf vf htf hvf => ?_)
              have hsub : sizeOf vf ≤ n := by
                subst hvf
                simp only [List.cons.sizeOf_spec, Prod.mk.sizeOf_spec,
                  JVal.obj.sizeOf_spec] at hsz
                omega
              have hvwf : dictListWF vf = true := by
                have hv : dictWF v = true := by
                  refine dictWF_of_dictGet ((k, v) :: rest) k v hwf ?_
                  rw [dictGet, if_pos rfl]
                rw [hvf] at hv
                exact hv
              exact ih tf vf hsub hvwf
            · rw [if_neg h] at hk'
              have := hpresent k' v' hk'
              rwa [dictGet_dictSet_ne _ _ _ _ (fun hh => h hh.symm)] at this

/-- C7: merge_settings(T, {}) equals T; merge_settings(T, O) agrees with O on
every key present in O and with T on every key absent from O, recursively for
nested dict values.  (The embedding is purely functional, so the source's
no-mutation clause is inherited by construction: inputs are never changed.) -/
theorem C7_merge_settings_spec :
    (∀ t : List (String × JVal),
        merge_settings_py t none = t ∧ merge_settings_py t (some []) = t) ∧
    (∀ t c : List (String × JVal), dictListWF c = true →
        Agrees t c (merge_settings t c)) := by
  constructor
  · intro t; exact ⟨rfl, rfl⟩
  · intro t c hwf
    exact agrees_merge_settings (sizeOf c) t c (le_refl _) hwf

/-- C7 witness: the agreement property applied at a concrete template and
override (nested dict, scalar override, untouched key). -/
theorem C7_merge_settings_spec_witness :
    Agrees
      [("a", JVal.num 1), ("b", JVal.obj [("x", JVal.num 2), ("y", JVal.num 3)])]
      [("b", JVal.obj [("x", JVal.num 9)]), ("c", JVal.str "new")]
      (merge_settings
        [("a", JVal.num 1), ("b", JVal.obj [("x", JVal.num 2), ("y", JVal.num 3)])]
        [("b", JVal.obj [("x", JVal.num 9)]), ("c", JVal.str "new")]) :=
  C7_merge_settings_spec.2 _ _ (by decide)

/-! ## Database rows

Row structures for the tables the claims touch.  Timestamps are seconds as
`Int`; autoincrement primary keys are tracked by explicit counters. -/

/-- models/workspace.py (fields used by ownership checks). -/
structure Workspace where
  id : Nat
  user_id : Nat
  is_deleted : Bool
deriving DecidableEq

/-- The effective settings snapshot stored on a session (single `settings`
JSON column since migration 019), restricted to the keys the join protocol
reads; `none` models an absent key. -/
structure EffectiveSettings where
  participant_entry_mode : Option String := none
  max_participants : Option Int := none
  sso_organization_id : Option Nat := none
deriving DecidableEq

/-- models/session.py (fields used by the claims). -/
structure SessionRow where
  id : Nat
  workspace_id : Nat
  passcode : Option String
  is_stopped : Bool
  settings : EffectiveSettings := {}
  active_module_id : Option Nat := none
  is_deleted : Bool := false
  deleted_at : Option Int := none
deriving DecidableEq

/-! ## utils/passcode.py -/

/-- `string.ascii_uppercase`. -/
def ascii_uppercase : String := "ABCDEFGHIJKLMNOPQRSTUVWXYZ"

/-- `string.digits`. -/
def digits_str : String := "0123456789"

/-- Python `s.replace(c, "")` for a one-character pattern: every occurrence
of the character is removed. -/
def removeChar (s : String) (c : Char) : String :=
  String.mk (s.toList.filter (fun x => x ≠ c))

/-- `generate_passcode`'s alphabet: uppercase letters and digits with the
confusable characters 0, O, 1, I removed. -/
def passcode_characters : String :=
  removeChar (removeChar (removeChar (removeChar
    (ascii_uppercase ++ digits_str) '0') 'O') '1') 'I'

/-- `generate_passcode` (src/utils/passcode.py, lines 9-23).
`random.choices(characters, k=length)` draws `length` arbitrary elements of
the alphabet; the random stream is modelled by `choice`, reduced modulo the
alphabet size to pick an element. -/
def generate_passcode (choice : Nat → Nat) (length : Nat := 6) : String :=
  String.mk ((List.range length).map (fun i =>
    passcode_characters.toList.getD (choice i % passcode_characters.toList.length) 'A'))

/-- `validate_passcode_format`'s character set: uppercase plus digits with
the four confusable characters discarded. -/
def valid_passcode_chars : List Char :=
  (ascii_uppercase ++ digits_str).toList.filter
    (fun c => !(c == '0' || c == 'O' || c == '1' || c == 'I'))

/-- `validate_passcode_format` (src/utils/passcode.py, lines 52-72). -/
def validate_passcode_format (passcode : String) : Bool :=
  if passcode.length == 0 then false
  else if passcode.length != 6 then false
  else passcode.toList.all (fun c => valid_passcode_chars.contains c)

/-- The existence query inside `generate_unique_passcode`:
`db.query(Session).filter(Session.passcode == passcode).first()` — note the
absence of an `is_deleted` filter, so soft-deleted sessions also count. -/
def passcode_query_first (sessions : List SessionRow) (passcode : String) :
    Option SessionRow :=
  sessions.find? (fun s => s.passcode == some passcode)

/-- The retry loop of `generate_unique_passcode`: `attempt` indexes the random
stream, `remaining` counts down from `max_attempts`. -/
def generate_unique_passcode_go (sessions : List SessionRow)
    (choices : Nat → Nat → Nat) (max_attempts : Nat) :
    Nat → Nat → Except String String
  | _, 0 =>
      Except.error
        ("Unable to generate unique passcode after " ++ toString max_attempts ++ " attempts")
  | attempt, remaining + 1 =>
      let passcode := generate_passcode (choices attempt) 6
      if (passcode_query_first sessions passcode).isSome then
        generate_unique_passcode_go sessions choices max_attempts (attempt + 1) remaining
      else Except.ok passcode

/-- `generate_unique_passcode` (src/utils/passcode.py, lines 26-49). -/
def generate_unique_passcode (sessions : List SessionRow)
    (choices : Nat → Nat → Nat) (max_attempts : Nat := 100) : Except String String :=
  generate_unique_passcode_go sessions choices max_attempts 0 max_attempts

theorem passcode_characters_sub_valid :
    ∀ c ∈ passcode_characters.toList, valid_passcode_chars.contains c = true := by
  decide

theorem generate_passcode_length (choice : Nat → Nat) :
    (generate_passcode choice 6).length = 6 := by
  show ((List.range 6).map (fun i =>
    passcode_characters.toList.getD (choice i % passcode_characters.toList.length) 'A')).length = 6
  rw [List.length_map, List.length_range]

theorem generate_passcode_chars (choice : Nat → Nat) :
    ∀ c ∈ (generate_passcode choice 6).toList, c ∈ passcode_characters.toList := by
  intro c hc
  have hc' : c ∈ (List.range 6).map (fun i =>
      passcode_characters.toList.getD (choice i % passcode_characters.toList.length) 'A') := hc
  rw [List.mem_map] at hc'
  obtain ⟨i, _, heq⟩ := hc'
  have hlt : choice i % passcode_characters.toList.length <
      passcode_characters.toList.length := by
    apply Nat.mod_lt
    decide
  rw [← heq, List.getD_eq_getElem _ _ hlt]
  exact List.getElem_mem hlt

theorem generate_unique_exhausted (sessions : List SessionRow)
    (choices : Nat → Nat → Nat)
    (h : ∀ a, (passcode_query_first sessions (generate_passcode (choices a) 6)).isSome = true) :
    ∀ remaining attempt, generate_unique_passcode_go sessions choices 100 attempt remaining =
      Except.error "Unable to generate unique passcode after 100 attempts" := by
  intro remaining
  induction remaining with
  | zero => intro attempt; rfl
  | succ r ih =>
      intro attempt
      simp only [generate_unique_passcode_go, h attempt, if_true]
      exact ih (attempt + 1)

theorem generate_unique_fresh (sessions : List SessionRow)
    (choices : Nat → Nat → Nat) (p : String) :
    ∀ remaining attempt,
      generate_unique_passcode_go sessions choices 100 attempt remaining = Except.ok p →
      ∀ s ∈ sessions, s.passcode ≠ some p := by
  intro remaining
  induction remaining with
  | zero => intro attempt h; cases h
  | succ r ih =>
      intro attempt h
      simp only [generate_unique_passcode_go] at h
      by_cases hq : (passcode_query_first sessions
          (generate_passcode (choices attempt) 6)).isSome = true
      · rw [if_pos hq] at h
        exact ih (attempt + 1) h
      · rw [if_neg hq] at h
        cases h
        intro s hs hps
        apply hq
        unfold passcode_query_first
        rw [List.find?_isSome]
        exact ⟨s, hs, by simp [hps]⟩

/-- C9: generate_passcode always returns a 6-character string over the
confusable-excluded alphabet (hence passes validate_passcode_format);
generate_unique_passcode retries up to 100 attempts, checks each candidate
against all sessions including soft-deleted ones, and raises once the bound
is exhausted. -/
theorem C9_passcode_generation :
    (∀ choice : Nat → Nat,
        (generate_passcode choice 6).length = 6 ∧
        validate_passcode_format (generate_passcode choice 6) = true) ∧
    (∀ (sessions : List SessionRow) (choices : Nat → Nat → Nat),
        (∀ a, (passcode_query_first sessions
            (generate_passcode (choices a) 6)).isSome = true) →
        generate_unique_passcode sessions choices 100 =
          Except.error "Unable to generate unique passcode after 100 attempts") ∧
    (∀ (sessions : List SessionRow) (choices : Nat → Nat → Nat) (p : String),
        generate_unique_passcode sessions choices 100 = Except.ok p →
        ∀ s ∈ sessions, s.passcode ≠ some p) := by
  refine ⟨fun choice => ⟨generate_passcode_length choice, ?_⟩,
    fun sessions choices h => generate_unique_exhausted sessions choices h 100 0,
    fun sessions choices p h => generate_unique_fresh sessions choices p 100 0 h⟩
  have hall : (generate_passcode choice 6).toList.all
      (fun c => valid_passcode_chars.contains c) = true := by
    rw [List.all_eq_true]
    intro c hc
    exact passcode_characters_sub_valid c (generate_passcode_chars choice c hc)
  unfold validate_passcode_format
  rw [generate_passcode_length choice]
  simpa using hall

/-- A soft-deleted session holding passcode "AAAAAA", for the C9 witness. -/
def deleted_passcode_session : SessionRow :=
  { id := 1, workspace_id := 1, passcode := some "AAAAAA",
    is_stopped := true, is_deleted := true }

/-- C9 witness: the format property, exhaustion against a table whose only
(soft-deleted) session owns the generated code, and freshness of a successful
generation against a table containing a soft-deleted session. -/
theorem C9_passcode_generation_witness :
    validate_passcode_format (generate_passcode (fun _ => 0) 6) = true ∧
    generate_unique_passcode [deleted_passcode_session] (fun _ _ => 0) 100 =
      Except.error "Unable to generate unique passcode after 100 attempts" ∧
    (∀ s ∈ [deleted_passcode_session], s.passcode ≠ some "BBBBBB") :=
  ⟨(C9_passcode_generation.1 (fun _ => 0)).2,
   C9_passcode_generation.2.1 _ _ (fun a => rfl),
   C9_passcode_generation.2.2 _ (fun _ _ => 1) "BBBBBB" rfl⟩

/-! ## repositories/session_module_timer_state_repository.py -/

/-- models/session_module_timer_state.py. -/
structure SessionModuleTimerState where
  session_module_id : Nat
  is_paused : Bool
  end_at : Option Int := none
  remaining_seconds : Option Int := none
  updated_at : Int := 0
deriving DecidableEq

/-- SQLAlchemy object mutation: the first row matching the predicate is
replaced (primary keys make the match unique in practice). -/
def updateFirst {α : Type} (p : α → Bool) (f : α → α) : List α → List α
  | [] => []
  | x :: rest => if p x then f x :: rest else x :: updateFirst p f rest

namespace TimerRepo

/-- `get_by_module`: first row with the given module id. -/
def get_by_module (states : List SessionModuleTimerState) (session_module_id : Nat) :
    Option SessionModuleTimerState :=
  states.find? (fun st => st.session_module_id == session_module_id)

/-- `get_or_create` (lines 20-36): return the existing row or add the default
one (`is_paused=True`, both `end_at` and `remaining_seconds` NULL). -/
def get_or_create (states : List SessionModuleTimerState) (session_module_id : Nat) :
    SessionModuleTimerState × List SessionModuleTimerState :=
  match get_by_module states session_module_id with
  | some st => (st, states)
  | none =>
      let st : SessionModuleTimerState :=
        { session_module_id := session_module_id, is_paused := true,
          end_at := none, remaining_seconds := none }
      (st, states ++ [st])

/-- `start` (lines 38-47): `end_at = now + duration`, `remaining_seconds`
cleared, `is_paused = False`. -/
def start (states : List SessionModuleTimerState) (session_module_id : Nat)
    (now duration_seconds : Int) :
    SessionModuleTimerState × List SessionModuleTimerState :=
  let r := get_or_create states session_module_id
  let st' : SessionModuleTimerState :=
    { r.1 with
      end_at := some (now + duration_seconds)
      remaining_seconds := none
      is_paused := false
      updated_at := now }
  (st', updateFirst (fun s => s.session_module_id == session_module_id) (fun _ => st') r.2)

/-- `pause` (lines 49-60): store `remaining_seconds`, clear `end_at`,
`is_paused = True`; `None` when no state row exists. -/
def pause (states : List SessionModuleTimerState) (session_module_id : Nat)
    (now remaining_seconds : Int) :
    Option (SessionModuleTimerState × List SessionModuleTimerState) :=
  match get_by_module states session_module_id with
  | none => none
  | some st =>
      let st' : SessionModuleTimerState :=
        { st with
          remaining_seconds := some remaining_seconds
          end_at := none
          is_paused := true
          updated_at := now }
      some (st', updateFirst (fun s => s.session_module_id == session_module_id)
              (fun _ => st') states)

/-- `resume` (lines 62-73): `end_at = now + remaining_seconds`, clear
`remaining_seconds`, `is_paused = False`; `None` when no row or no
remaining value. -/
def resume (states : List SessionModuleTimerState) (session_module_id : Nat) (now : Int) :
    Option (SessionModuleTimerState × List SessionModuleTimerState) :=
  match get_by_module states session_module_id with
  | none => none
  | some st =>
      match st.remaining_seconds with
      | none => none
      | some r =>
          let st' : SessionModuleTimerState :=
            { st with
              end_at := some (now + r)
              remaining_seconds := none
              is_paused := false
              updated_at := now }
          some (st', updateFirst (fun s => s.session_module_id == session_module_id)
                  (fun _ => st') states)

/-- `reset` (lines 75-86): clear both fields, `is_paused = True`; `None` when
no state row exists. -/
def reset (states : List SessionModuleTimerState) (session_module_id : Nat) (now : Int) :
    Option (SessionModuleTimerState × List SessionModuleTimerState) :=
  match get_by_module states session_module_id with
  | none => none
  | some st =>
      let st' : SessionModuleTimerState :=
        { st with
          is_paused := true
          end_at := none
          remaining_seconds := none
          updated_at := now }
      some (st', updateFirst (fun s => s.session_module_id == session_module_id)
              (fun _ => st') states)

end TimerRepo

/-- The claim's mutual-exclusion property: exactly one of `end_at` and
`remaining_seconds` is non-null. -/
def timer_exactly_one (st : SessionModuleTimerState) : Bool :=
  (st.end_at.isSome && !st.remaining_seconds.isSome) ||
    (!st.end_at.isSome && st.remaining_seconds.isSome)

/-- The amended property: at most one of the two fields is non-null (the idle
state — fresh rows and reset — has both null). -/
def timer_at_most_one (st : SessionModuleTimerState) : Bool :=
  !(st.end_at.isSome && st.remaining_seconds.isSome)

/-- One timer-repository call, tagged with its `datetime.now` value. -/
inductive TimerOp where
  | opGetOrCreate
  | opStart (now duration : Int)
  | opPause (now remaining : Int)
  | opResume (now : Int)
  | opReset (now : Int)

/-- State of the timer table after one repository call on one module. -/
def apply_timer_op (states : List SessionModuleTimerState) :
    Nat × TimerOp → List SessionModuleTimerState
  | (mid, TimerOp.opGetOrCreate) => (TimerRepo.get_or_create states mid).2
  | (mid, TimerOp.opStart now d) => (TimerRepo.start states mid now d).2
  | (mid, TimerOp.opPause now r) =>
      match TimerRepo.pause states mid now r with
      | some (_, s) => s
      | none => states
  | (mid, TimerOp.opResume now) =>
      match TimerRepo.resume states mid now with
      | some (_, s) => s
      | none => states
  | (mid, TimerOp.opReset now) =>
      match TimerRepo.reset states mid now with
      | some (_, s) => s
      | none => states

/-- State of the timer table after a sequence of repository calls. -/
def run_timer_ops (states : List SessionModuleTimerState)
    (ops : List (Nat × TimerOp)) : List SessionModuleTimerState :=
  ops.foldl apply_timer_op states

theorem mem_updateFirst {α : Type} (p : α → Bool) (f : α → α) (l : List α) (y : α)
    (hy : y ∈ updateFirst p f l) : y ∈ l ∨ ∃ x ∈ l, p x = true ∧ y = f x := by
  induction l with
  | nil => cases hy
  | cons x rest ih =>
      rw [updateFirst] at hy
      by_cases hp : p x = true
      · rw [if_pos hp] at hy
        rcases List.mem_cons.mp hy with h | h
        · exact Or.inr ⟨x, List.mem_cons_self _ _, hp, h⟩
        · exact Or.inl (List.mem_cons_of_mem _ h)
      · rw [if_neg hp] at hy
        rcases List.mem_cons.mp hy with h | h
        · exact Or.inl (h ▸ List.mem_cons_self _ _)
        · rcases ih h with h' | ⟨x', hx', hpx', he⟩
          · exact Or.inl (List.mem_cons_of_mem _ h')
          · exact Or.inr ⟨x', List.mem_cons_of_mem _ hx', hpx', he⟩

/-- The default row created by `get_or_create`. -/
def idle_timer_state (mid : Nat) : SessionModuleTimerState :=
  { session_module_id := mid, is_paused := true, end_at := none,
    remaining_seconds := none, updated_at := 0 }

theorem mem_get_or_create (states : List SessionModuleTimerState) (mid : Nat)
    (st : SessionModuleTimerState)
    (hst : st ∈ (TimerRepo.get_or_create states mid).2) :
    st ∈ states ∨ st = idle_timer_state mid := by
  unfold TimerRepo.get_or_create at hst
  rcases hq : TimerRepo.get_by_module states mid with _ | st0
  · rw [hq] at hst
    have hst' : st ∈ states ++ [idle_timer_state mid] := hst
    rcases List.mem_append.mp hst' with h' | h'
    · exact Or.inl h'
    · exact Or.inr (List.mem_singleton.mp h')
  · rw [hq] at hst
    exact Or.inl hst

theorem pause_inversion (states : List SessionModuleTimerState) (mid : Nat)
    (now r : Int) (st' : SessionModuleTimerState)
    (states' : List SessionModuleTimerState)
    (hp : TimerRepo.pause states mid now r = some (st', states')) :
    timer_exactly_one st' = true ∧
      states' = updateFirst (fun s => s.session_module_id == mid) (fun _ => st') states := by
  unfold TimerRepo.pause at hp
  split at hp
  · exact Option.noConfusion hp
  next st0 hq =>
    injection hp with hp
    injection hp with hp1 hp2
    subst hp1
    exact ⟨rfl, hp2.symm⟩

theorem resume_inversion (states : List SessionModuleTimerState) (mid : Nat)
    (now : Int) (st' : SessionModuleTimerState)
    (states' : List SessionModuleTimerState)
    (hp : TimerRepo.resume states mid now = some (st', states')) :
    timer_exactly_one st' = true ∧
      states' = updateFirst (fun s => s.session_module_id == mid) (fun _ => st') states := by
  unfold TimerRepo.resume at hp
  split at hp
  · exact Option.noConfusion hp
  next st0 hq =>
    split at hp
    · exact Option.noConfusion hp
    next r0 hrem =>
      injection hp with hp
      injection hp with hp1 hp2
      subst hp1
      exact ⟨rfl, hp2.symm⟩

theorem reset_inversion (states : List SessionModuleTimerState) (mid : Nat)
    (now : Int) (st' : SessionModuleTimerState)
    (states' : List SessionModuleTimerState)
    (hp : TimerRepo.reset states mid now = some (st', states')) :
    timer_at_most_one st' = true ∧
      states' = updateFirst (fun s => s.session_module_id == mid) (fun _ => st') states := by
  unfold TimerRepo.reset at hp
  split at hp
  · exact Option.noConfusion hp
  next st0 hq =>
    injection hp with hp
    injection hp with hp1 hp2
    subst hp1
    exact ⟨rfl, hp2.symm⟩

theorem at_most_one_of_exactly_one (st : SessionModuleTimerState)
    (h : timer_exactly_one st = true) : timer_at_most_one st = true := by
  unfold timer_exactly_one at h
  unfold timer_at_most_one
  cases hA : st.end_at.isSome <;> cases hB : st.remaining_seconds.isSome <;>
    simp [hA, hB] at h ⊢

theorem timer_op_preserves (states : List SessionModuleTimerState)
    (op : Nat × TimerOp)
    (h : ∀ st ∈ states, timer_at_most_one st = true) :
    ∀ st ∈ apply_timer_op states op, timer_at_most_one st = true := by
  obtain ⟨mid, op⟩ := op
  cases op with
  | opGetOrCreate =>
      intro st hst
      rcases mem_get_or_create states mid st hst with h' | rfl
      · exact h st h'
      · rfl
  | opStart now d =>
      intro st hst
      have hst' : st ∈ updateFirst (fun s => s.session_module_id == mid)
          (fun _ => (TimerRepo.start states mid now d).1)
          (TimerRepo.get_or_create states mid).2 := hst
      rcases mem_updateFirst _ _ _ _ hst' with h' | ⟨x, hx, hpx, rfl⟩
      · rcases mem_get_or_create states mid st h' with h'' | rfl
        · exact h st h''
        · rfl
      · rfl
  | opPause now r =>
      intro st hst
      rw [apply_timer_op] at hst
      split at hst
      next st0 states0 hp =>
        obtain ⟨h1, rfl⟩ := pause_inversion states mid now r st0 states0 hp
        rcases mem_updateFirst _ _ _ _ hst with h' | ⟨x, hx, hpx, rfl⟩
        · exact h st h'
        · exact at_most_one_of_exactly_one _ h1
      next hp => exact h st hst
  | opResume now =>
      intro st hst
      rw [apply_timer_op] at hst
      split at hst
      next st0 states0 hp =>
        obtain ⟨h1, rfl⟩ := resume_inversion states mid now st0 states0 hp
        rcases mem_updateFirst _ _ _ _ hst with h' | ⟨x, hx, hpx, rfl⟩
        · exact h st h'
        · exact at_most_one_of_exactly_one _ h1
      next hp => exact h st hst
  | opReset now =>
      intro st hst
      rw [apply_timer_op] at hst
      split at hst
      next st0 states0 hp =>
        obtain ⟨h1, rfl⟩ := reset_inversion states mid now st0 states0 hp
        rcases mem_updateFirst _ _ _ _ hst with h' | ⟨x, hx, hpx, rfl⟩
        · exact h st h'
        · exact h1
      next hp => exact h st hst

/-- C5 counterexample: the claim's "exactly one of end_at/remaining_seconds
is non-null" is already false in the initial state created by get_or_create,
which sets both fields to NULL (the idle state). -/
theorem C5_timer_exactly_one_counterexample :
    timer_exactly_one (TimerRepo.get_or_create [] 1).1 = false ∧
    (TimerRepo.get_or_create [] 1).1.end_at = none ∧
    (TimerRepo.get_or_create [] 1).1.remaining_seconds = none := by
  decide

/-- C5 amended: at most one of end_at and remaining_seconds is non-null —
an invariant holding in the initial state and preserved by every sequence of
get_or_create/start/pause/resume/reset calls; moreover every state produced
by start, pause and resume has exactly one of the two non-null. -/
theorem C5_timer_at_most_one_invariant :
    (∀ ops : List (Nat × TimerOp),
        ∀ st ∈ run_timer_ops [] ops, timer_at_most_one st = true) ∧
    (∀ states mid now d, timer_exactly_one (TimerRepo.start states mid now d).1 = true) ∧
    (∀ states mid now r st' states',
        TimerRepo.pause states mid now r = some (st', states') →
        timer_exactly_one st' = true) ∧
    (∀ states mid now st' states',
        TimerRepo.resume states mid now = some (st', states') →
        timer_exactly_one st' = true) := by
  refine ⟨fun ops => ?_, fun states mid now d => rfl,
    fun states mid now r st' states' hp => ?_, fun states mid now st' states' hp => ?_⟩
  · have hgen : ∀ (states : List SessionModuleTimerState),
        (∀ st ∈ states, timer_at_most_one st = true) →
        ∀ st ∈ run_timer_ops states ops, timer_at_most_one st = true := by
      induction ops with
      | nil => intro states h st hst; exact h st hst
      | cons op rest ih =>
          intro states h st hst
          exact ih (apply_timer_op states op) (timer_op_preserves states op h) st hst
    exact hgen [] (fun st hst => by cases hst)
  · exact (pause_inversion states mid now r st' states' hp).1
  · exact (resume_inversion states mid now st' states' hp).1

/-- C5 witness: the invariant evaluated on a concrete call sequence
(create, start, pause), and the exactly-one property at a concrete pause. -/
theorem C5_timer_at_most_one_invariant_witness :
    (∀ st ∈ run_timer_ops []
        [(1, TimerOp.opGetOrCreate), (1, TimerOp.opStart 0 60), (1, TimerOp.opPause 5 30)],
      timer_at_most_one st = true) ∧
    timer_exactly_one
      { session_module_id := 1, is_paused := true, end_at := none,
        remaining_seconds := some 30, updated_at := 5 } = true :=
  ⟨C5_timer_at_most_one_invariant.1 _,
   C5_timer_at_most_one_invariant.2.2.1 (TimerRepo.get_or_create [] 1).2 1 5 30 _ _ rfl⟩

/-! ## Module settings (utils/module_settings.py)

Module settings are stored as JSON; the services parse them with pydantic
models whose `Field(default=...)` supply defaults and whose `extra = allow`
ignores unrelated keys.  The raw structures below have an `Option` per field
(`none` = key absent), and the `get_*` functions apply the defaults exactly
as `model_validate(...).model_dump()` does for stored settings that passed
creation-time validation. -/

/-- Stored Questions-module settings (fields may be absent). -/
structure RawQuestionsSettings where
  length_limit_mode : Option String := none
  likes_enabled : Option Bool := none
  allow_anonymous : Option Bool := none
  cooldown_enabled : Option Bool := none
  cooldown_seconds : Option Int := none
  allow_participant_answers : Option Bool := none
  max_questions_total : Option Int := none
deriving DecidableEq

/-- Questions settings after defaults are applied (`QuestionsModuleSettings`). -/
structure QuestionsOpts where
  length_limit_mode : String
  likes_enabled : Bool
  allow_anonymous : Bool
  cooldown_enabled : Bool
  cooldown_seconds : Int
  allow_participant_answers : Bool
  max_questions_total : Option Int
deriving DecidableEq

/-- Stored Timer-module settings (fields may be absent). -/
structure RawTimerSettings where
  duration_seconds : Option Int := none
  sound_notification_enabled : Option Bool := none
deriving DecidableEq

/-- Timer settings after defaults are applied (`TimerModuleSettings`). -/
structure TimerOpts where
  duration_seconds : Int
  sound_notification_enabled : Bool
deriving DecidableEq

/-- A session module's `settings` JSON, viewed by kind.  Parsing a dict that
holds no questions/timer keys yields pure defaults (`extra = allow`). -/
inductive ModuleSettingsVal where
  | questionsSettings (q : RawQuestionsSettings)
  | timerSettings (t : RawTimerSettings)
  | otherSettings
deriving DecidableEq

/-- Creation-time validation of Timer settings (`duration_seconds` has
`gt=0`); stored settings always satisfy this. -/
def validate_timer_settings (raw : RawTimerSettings) : Bool :=
  match raw.duration_seconds with
  | none => true
  | some d => decide (d > 0)

/-- `get_questions_settings`: defaults per `QuestionsModuleSettings`. -/
def get_questions_settings (s : Option ModuleSettingsVal) : QuestionsOpts :=
  let r : RawQuestionsSettings :=
    match s with
    | some (ModuleSettingsVal.questionsSettings q) => q
    | _ => {}
  { length_limit_mode := r.length_limit_mode.getD "moderate"
    likes_enabled := r.likes_enabled.getD true
    allow_anonymous := r.allow_anonymous.getD false
    cooldown_enabled := r.cooldown_enabled.getD false
    cooldown_seconds := r.cooldown_seconds.getD 30
    allow_participant_answers := r.allow_participant_answers.getD true
    max_questions_total := r.max_questions_total }

/-- `QUESTIONS_LENGTH_LIMITS.get(mode, QUESTIONS_LENGTH_LIMITS["moderate"])`. -/
def questions_length_limit (mode : String) : Int :=
  if mode = "compact" then 100
  else if mode = "moderate" then 250
  else if mode = "extended" then 500
  else 250

/-- `get_questions_max_length`. -/
def get_questions_max_length (opts : QuestionsOpts) : Int :=
  questions_length_limit opts.length_limit_mode

/-- `get_timer_settings`:
`TimerModuleSettings.model_validate(settings or {}).model_dump()`.
`model_validate` enforces `gt=0` on a present `duration_seconds` and raises
pydantic's ValidationError otherwise (modelled by the fixed error string
below); defaults are applied to absent keys. -/
def get_timer_settings (s : Option ModuleSettingsVal) :
    Except String TimerOpts :=
  let r : RawTimerSettings :=
    match s with
    | some (ModuleSettingsVal.timerSettings t) => t
    | _ => {}
  if validate_timer_settings r then
    Except.ok
      { duration_seconds := r.duration_seconds.getD 60
        sound_notification_enabled := r.sound_notification_enabled.getD true }
  else
    Except.error
      "validation error for TimerModuleSettings: duration_seconds must be greater than 0"

/-! ## repositories/session_module_repository.py -/

/-- models/session_module.py (fields used by the claims). -/
structure SessionModule where
  id : Nat
  session_id : Nat
  name : String := ""
  module_type : String := ""
  settings : Option ModuleSettingsVal := none
  is_active : Bool := false
  is_deleted : Bool := false
  deleted_at : Option Int := none
  created_at : Int := 0
deriving DecidableEq

/-- The tables touched by module activation: session modules plus the
sessions carrying the `active_module_id` back-reference. -/
structure ModuleDB where
  sessions : List SessionRow
  modules : List SessionModule
deriving DecidableEq

/-- `db.delete(obj)`: the row found by the preceding query is removed. -/
def removeFirst {α : Type} (p : α → Bool) : List α → List α
  | [] => []
  | x :: rest => if p x then rest else x :: removeFirst p rest

namespace SessionModuleRepo

/-- `get_by_id` (lines 12-17): by primary key, no `is_deleted` filter. -/
def get_by_id (db : ModuleDB) (module_id : Nat) : Option SessionModule :=
  db.modules.find? (fun m => m.id == module_id)

/-- `get_active_module` (lines 33-40). -/
def get_active_module (db : ModuleDB) (session_id : Nat) : Option SessionModule :=
  db.modules.find? (fun m =>
    m.session_id == session_id && m.is_active == true && m.is_deleted == false)

/-- The bulk UPDATE of `set_active_module` (lines 99-104): deactivate every
non-deleted module of the session other than the target. -/
def deactivate_others (db : ModuleDB) (session_id module_id : Nat) :
    List SessionModule :=
  db.modules.map (fun m =>
    if m.session_id == session_id && m.id != module_id && m.is_deleted == false
    then { m with is_active := false } else m)

/-- `set_active_module` (lines 92-118): bulk-deactivate all other non-deleted
modules of the session, then fetch the target by id, activate it, and mirror
its id into the session's `active_module_id`. -/
def set_active_module (db : ModuleDB) (session_id module_id : Nat) :
    Option SessionModule × ModuleDB :=
  let modules1 := deactivate_others db session_id module_id
  let db1 : ModuleDB := { db with modules := modules1 }
  match get_by_id db1 module_id with
  | none => (none, db1)
  | some m =>
      if m.session_id != session_id then (none, db1)
      else
        let m' := { m with is_active := true }
        let modules2 := updateFirst (fun x => x.id == module_id) (fun _ => m') modules1
        let sessions2 := updateFirst (fun s => s.id == session_id)
          (fun s => { s with active_module_id := some module_id }) db1.sessions
        (some m', { sessions := sessions2, modules := modules2 })

/-- `deactivate_all_modules` (lines 120-131). -/
def deactivate_all_modules (db : ModuleDB) (session_id : Nat) : ModuleDB :=
  { sessions := updateFirst (fun s => s.id == session_id)
      (fun s => { s with active_module_id := none }) db.sessions
    modules := db.modules.map (fun m =>
      if m.session_id == session_id && m.is_deleted == false
      then { m with is_active := false } else m) }

/-- `soft_delete` (lines 160-176): clear the back-reference when the module
was active, then mark deleted and deactivate. -/
def soft_delete (db : ModuleDB) (now : Int) (module_id : Nat) :
    Option SessionModule × ModuleDB :=
  match get_by_id db module_id with
  | none => (none, db)
  | some m =>
      if m.is_deleted then (none, db)
      else
        let sessions1 :=
          if m.is_active then
            updateFirst (fun s => s.id == m.session_id)
              (fun s => { s with active_module_id := none }) db.sessions
          else db.sessions
        let m' := { m with is_deleted := true, deleted_at := some now, is_active := false }
        (some m',
          { sessions := sessions1
            modules := updateFirst (fun x => x.id == module_id) (fun _ => m') db.modules })

/-- `delete` (lines 220-234): hard removal (clearing the back-reference when
the module was active) or delegation to `soft_delete`. -/
def delete (db : ModuleDB) (now : Int) (module_id : Nat) (hard : Bool) :
    Option SessionModule × ModuleDB :=
  if hard then
    match db.modules.find? (fun m => m.id == module_id) with
    | none => (none, db)
    | some m =>
        let sessions1 :=
          if m.is_active then
            updateFirst (fun s => s.id == m.session_id)
              (fun s => { s with active_module_id := none }) db.sessions
          else db.sessions
        (some m,
          { sessions := sessions1
            modules := removeFirst (fun x => x.id == module_id) db.modules })
  else soft_delete db now module_id

end SessionModuleRepo

/-! ## Generic list lemmas for primary-key updates -/

theorem mem_updateFirst_of_not_p {α : Type} (p : α → Bool) (f : α → α)
    (l : List α) (x : α) (hx : x ∈ l) (hp : p x = false) :
    x ∈ updateFirst p f l := by
  induction l with
  | nil => cases hx
  | cons a rest ih =>
      rw [updateFirst]
      rcases List.mem_cons.mp hx with h | h
      · subst h
        rw [if_neg (by rw [hp]; exact Bool.false_ne_true)]
        exact List.mem_cons_self _ _
      · by_cases ha : p a = true
        · rw [if_pos ha]
          exact List.mem_cons_of_mem _ h
        · rw [if_neg ha]
          exact List.mem_cons_of_mem _ (ih h)

theorem updateFirst_key_cases {α : Type} (key : α → Nat) (k : Nat) (f : α → α)
    (l : List α) (hnd : (l.map key).Nodup) (y : α)
    (hy : y ∈ updateFirst (fun x => key x == k) f l) :
    (∃ x ∈ l, key x = k ∧ y = f x) ∨ (y ∈ l ∧ key y ≠ k) := by
  induction l with
  | nil => cases hy
  | cons a rest ih =>
      rw [updateFirst] at hy
      rw [List.map_cons, List.nodup_cons] at hnd
      by_cases ha : (key a == k) = true
      · rw [if_pos ha] at hy
        rcases List.mem_cons.mp hy with h | h
        · exact Or.inl ⟨a, List.mem_cons_self _ _, beq_iff_eq.mp ha, h⟩
        · refine Or.inr ⟨List.mem_cons_of_mem _ h, fun hk => ?_⟩
          exact hnd.1 (by rw [beq_iff_eq.mp ha, ← hk]
                          exact List.mem_map_of_mem key h)
      · rw [if_neg ha] at hy
        rcases List.mem_cons.mp hy with h | h
        · subst h
          exact Or.inr ⟨List.mem_cons_self _ _, fun hk => ha (beq_iff_eq.mpr hk)⟩
        · rcases ih hnd.2 h with ⟨x, hx, hxk, he⟩ | ⟨hyl, hyk⟩
          · exact Or.inl ⟨x, List.mem_cons_of_mem _ hx, hxk, he⟩
          · exact Or.inr ⟨List.mem_cons_of_mem _ hyl, hyk⟩

theorem updateFirst_key_updated_mem {α : Type} (key : α → Nat) (k : Nat) (f : α → α)
    (l : List α) (x : α) (hx : x ∈ l) (hk : key x = k) :
    ∃ x' ∈ l, key x' = k ∧ f x' ∈ updateFirst (fun a => key a == k) f l := by
  induction l with
  | nil => cases hx
  | cons a rest ih =>
      rw [updateFirst]
      by_cases ha : (key a == k) = true
      · rw [if_pos ha]
        exact ⟨a, List.mem_cons_self _ _, beq_iff_eq.mp ha, List.mem_cons_self _ _⟩
      · rw [if_neg ha]
        rcases List.mem_cons.mp hx with h | h
        · subst h
          exact absurd (beq_iff_eq.mpr hk) ha
        · obtain ⟨x', hx', hk', hm⟩ := ih h
          exact ⟨x', List.mem_cons_of_mem _ hx', hk', List.mem_cons_of_mem _ hm⟩

theorem map_key_updateFirst {α : Type} (key : α → Nat) (p : α → Bool) (f : α → α)
    (l : List α) (hf : ∀ x ∈ l, p x = true → key (f x) = key x) :
    (updateFirst p f l).map key = l.map key := by
  induction l with
  | nil => rfl
  | cons a rest ih =>
      rw [updateFirst]
      by_cases ha : p a = true
      · rw [if_pos ha, List.map_cons, List.map_cons,
          hf a (List.mem_cons_self _ _) ha]
      · rw [if_neg ha, List.map_cons, List.map_cons,
          ih (fun x hx hp => hf x (List.mem_cons_of_mem _ hx) hp)]

theorem removeFirst_sublist {α : Type} (p : α → Bool) (l : List α) :
    (removeFirst p l).Sublist l := by
  induction l with
  | nil => exact List.Sublist.refl _
  | cons a rest ih =>
      rw [removeFirst]
      by_cases ha : p a = true
      · rw [if_pos ha]
        exact List.sublist_cons_of_sublist a (List.Sublist.refl _)
      · rw [if_neg ha]
        exact List.Sublist.cons₂ a ih

theorem mem_removeFirst_of_not_p {α : Type} (p : α → Bool) (l : List α) (x : α)
    (hx : x ∈ l) (hp : p x = false) : x ∈ removeFirst p l := by
  induction l with
  | nil => cases hx
  | cons a rest ih =>
      rw [removeFirst]
      rcases List.mem_cons.mp hx with h | h
      · subst h
        rw [if_neg (by rw [hp]; exact Bool.false_ne_true)]
        exact List.mem_cons_self _ _
      · by_cases ha : p a = true
        · rw [if_pos ha]
          exact h
        · rw [if_neg ha]
          exact List.mem_cons_of_mem _ (ih h)

theorem removeFirst_key_not_key {α : Type} (key : α → Nat) (k : Nat) (l : List α)
    (hnd : (l.map key).Nodup) (y : α)
    (hy : y ∈ removeFirst (fun x => key x == k) l) : key y ≠ k := by
  induction l with
  | nil => cases hy
  | cons a rest ih =>
      rw [removeFirst] at hy
      rw [List.map_cons, List.nodup_cons] at hnd
      by_cases ha : (key a == k) = true
      · rw [if_pos ha] at hy
        intro hk
        exact hnd.1 (by rw [beq_iff_eq.mp ha, ← hk]
                        exact List.mem_map_of_mem key hy)
      · rw [if_neg ha] at hy
        rcases List.mem_cons.mp hy with h | h
        · subst h
          exact fun hk => ha (beq_iff_eq.mpr hk)
        · exact ih hnd.2 h

theorem nodup_key_eq {α : Type} (key : α → Nat) (l : List α)
    (hnd : (l.map key).Nodup) (x y : α) (hx : x ∈ l) (hy : y ∈ l)
    (hk : key x = key y) : x = y :=
  List.inj_on_of_nodup_map hnd hx hy hk

/-! ## C1: module activation exclusivity -/

/-- The claim's post-activation property: the target is a non-deleted active
module of the session, no other non-deleted module of the session is active,
and every row of that session has `active_module_id` pointing at the target. -/
def c1_activation_post (db : ModuleDB) (session_id module_id : Nat) : Bool :=
  db.modules.any (fun m =>
    m.id == module_id && m.session_id == session_id &&
      m.is_deleted == false && m.is_active == true) &&
  db.modules.all (fun m =>
    !(m.session_id == session_id && m.is_deleted == false &&
      m.is_active == true && m.id != module_id)) &&
  db.sessions.all (fun s => s.id != session_id || s.active_module_id == some module_id)

/-- State with one soft-deleted module (id 1) and one live module (id 2) in
session 10: activating the soft-deleted module succeeds. -/
def c1_cex_db : ModuleDB :=
  { sessions := [{ id := 10, workspace_id := 1, passcode := none,
                   is_stopped := false, active_module_id := some 2 }]
    modules := [{ id := 1, session_id := 10, module_type := "questions",
                  is_deleted := true, deleted_at := some 0 },
                { id := 2, session_id := 10, module_type := "timer",
                  is_active := true }] }

/-- Primary keys are unique: DB uniqueness invariant assumed by the lemmas. -/
def module_tables_nodup (db : ModuleDB) : Prop :=
  (db.modules.map SessionModule.id).Nodup ∧ (db.sessions.map SessionRow.id).Nodup

/-- At most one non-deleted module per session is active. -/
def at_most_one_active (db : ModuleDB) : Prop :=
  ∀ s ∈ db.sessions, ∀ m1 ∈ db.modules, ∀ m2 ∈ db.modules,
    m1.session_id = s.id → m2.session_id = s.id →
    m1.is_deleted = false → m2.is_deleted = false →
    m1.is_active = true → m2.is_active = true → m1.id = m2.id

/-- `active_module_id` names a non-deleted active module of the session, or
is null. -/
def pointer_consistent (db : ModuleDB) : Prop :=
  ∀ s ∈ db.sessions, ∀ x, s.active_module_id = some x →
    ∃ mm ∈ db.modules, mm.id = x ∧ mm.session_id = s.id ∧
      mm.is_deleted = false ∧ mm.is_active = true

/-- One committed module-activation-manager operation: a successful
activation of a non-deleted module, a delete (soft or hard), or
deactivate-all. -/
inductive ModuleStep : ModuleDB → ModuleDB → Prop where
  | activate (db : ModuleDB) (sid mid : Nat) (m : SessionModule) (db' : ModuleDB) :
      SessionModuleRepo.set_active_module db sid mid = (some m, db') →
      m.is_deleted = false → ModuleStep db db'
  | softDelete (db : ModuleDB) (now : Int) (mid : Nat)
      (r : Option SessionModule) (db' : ModuleDB) :
      SessionModuleRepo.soft_delete db now mid = (r, db') → ModuleStep db db'
  | hardDelete (db : ModuleDB) (now : Int) (mid : Nat)
      (r : Option SessionModule) (db' : ModuleDB) :
      SessionModuleRepo.delete db now mid true = (r, db') → ModuleStep db db'
  | deactivateAll (db : ModuleDB) (sid : Nat) :
      ModuleStep db (SessionModuleRepo.deactivate_all_modules db sid)

theorem mem_deactivate_others (db : ModuleDB) (sid mid : Nat)
    (y : SessionModule)
    (hy : y ∈ SessionModuleRepo.deactivate_others db sid mid) :
    ∃ x ∈ db.modules,
      y.id = x.id ∧ y.session_id = x.session_id ∧ y.is_deleted = x.is_deleted ∧
      (y.is_active = true → x.is_active = true) ∧
      (x.session_id = sid → x.id ≠ mid → x.is_deleted = false →
        y.is_active = false) ∧
      (¬(x.session_id = sid ∧ x.id ≠ mid ∧ x.is_deleted = false) → y = x) := by
  unfold SessionModuleRepo.deactivate_others at hy
  obtain ⟨x, hx, hgx⟩ := List.mem_map.mp hy
  by_cases hc : (x.session_id == sid && x.id != mid && x.is_deleted == false) = true
  · rw [if_pos hc] at hgx
    subst hgx
    rw [Bool.and_eq_true, Bool.and_eq_true] at hc
    obtain ⟨⟨hc1, hc2⟩, hc3⟩ := hc
    refine ⟨x, hx, rfl, rfl, rfl, ?_, ?_, ?_⟩
    · intro hact
      cases hact
    · intro _ _ _
      rfl
    · intro hcon
      exact absurd ⟨beq_iff_eq.mp hc1, bne_iff_ne.mp hc2, beq_iff_eq.mp hc3⟩ hcon
  · rw [if_neg hc] at hgx
    subst hgx
    refine ⟨x, hx, rfl, rfl, rfl, fun h => h, ?_, fun _ => rfl⟩
    intro h1 h2 h3
    exact absurd (by rw [Bool.and_eq_true, Bool.and_eq_true]
                     exact ⟨⟨beq_iff_eq.mpr h1, bne_iff_ne.mpr h2⟩, beq_iff_eq.mpr h3⟩) hc

theorem deactivate_others_keeps (db : ModuleDB) (sid mid : Nat)
    (x : SessionModule) (hx : x ∈ db.modules)
    (hc : (x.session_id == sid && x.id != mid && x.is_deleted == false) = false) :
    x ∈ SessionModuleRepo.deactivate_others db sid mid := by
  unfold SessionModuleRepo.deactivate_others
  refine List.mem_map.mpr ⟨x, hx, ?_⟩
  rw [if_neg (by rw [hc]; exact Bool.false_ne_true)]

theorem deactivate_others_ids (db : ModuleDB) (sid mid : Nat) :
    (SessionModuleRepo.deactivate_others db sid mid).map SessionModule.id =
      db.modules.map SessionModule.id := by
  unfold SessionModuleRepo.deactivate_others
  rw [List.map_map]
  apply List.map_congr_left
  intro x hx
  by_cases hc : (x.session_id == sid && x.id != mid && x.is_deleted == false) = true
  · rw [Function.comp_apply, if_pos hc]
  · rw [Function.comp_apply, if_neg hc]

theorem set_active_module_inversion (db : ModuleDB) (sid mid : Nat)
    (m : SessionModule) (db' : ModuleDB)
    (h : SessionModuleRepo.set_active_module db sid mid = (some m, db')) :
    ∃ m0, (SessionModuleRepo.deactivate_others db sid mid).find?
        (fun x => x.id == mid) = some m0 ∧
      m0.session_id = sid ∧ m = { m0 with is_active := true } ∧
      db'.modules = updateFirst (fun x => x.id == mid) (fun _ => m)
        (SessionModuleRepo.deactivate_others db sid mid) ∧
      db'.sessions = updateFirst (fun s => s.id == sid)
        (fun s => { s with active_module_id := some mid }) db.sessions := by
  unfold SessionModuleRepo.set_active_module at h
  dsimp only [] at h
  split at h
  · exact absurd (congrArg Prod.fst h) (by simp)
  next m0 hfind =>
    split at h
    · exact absurd (congrArg Prod.fst h) (by simp)
    next hsid =>
      have hs : m0.session_id = sid := by
        have hb : (m0.session_id != sid) = false := Bool.of_not_eq_true hsid
        simpa using hb
      have hfst := Option.some_inj.mp (congrArg Prod.fst h)
      have hsnd := congrArg Prod.snd h
      refine ⟨m0, hfind, hs, hfst.symm, ?_, ?_⟩
      · rw [← hfst]
        exact (congrArg ModuleDB.modules hsnd).symm
      · exact (congrArg ModuleDB.sessions hsnd).symm

/-- C1 counterexample: activating the soft-deleted module with id 1 succeeds
(the deleted-module guard only filters the deactivation sweep, not the
target lookup), yet afterwards module 1 is not a non-deleted active module,
so the claimed post-state is false. -/
theorem C1_set_active_module_counterexample :
    (SessionModuleRepo.set_active_module c1_cex_db 10 1).1.isSome = true ∧
    c1_activation_post (SessionModuleRepo.set_active_module c1_cex_db 10 1).2 10 1 = false := by
  decide

theorem set_active_module_post (db : ModuleDB) (sid mid : Nat)
    (m : SessionModule) (db' : ModuleDB)
    (hnd : module_tables_nodup db)
    (h : SessionModuleRepo.set_active_module db sid mid = (some m, db'))
    (hm : m.is_deleted = false) :
    c1_activation_post db' sid mid = true := by
  obtain ⟨m0, hfind, hs, hm0, hmods, hsess⟩ := set_active_module_inversion db sid mid m db' h
  have hm0mem : m0 ∈ SessionModuleRepo.deactivate_others db sid mid :=
    List.mem_of_find?_eq_some hfind
  have hm0p := List.find?_some hfind
  have hm0id : m0.id = mid := by simpa using hm0p
  have hndsw : ((SessionModuleRepo.deactivate_others db sid mid).map
      SessionModule.id).Nodup := by
    rw [deactivate_others_ids]; exact hnd.1
  have hmid : m.id = mid := by rw [hm0]; exact hm0id
  have hmsid : m.session_id = sid := by rw [hm0]; exact hs
  have hmact : m.is_active = true := by rw [hm0]
  unfold c1_activation_post
  rw [Bool.and_eq_true, Bool.and_eq_true]
  refine ⟨⟨?_, ?_⟩, ?_⟩
  · rw [List.any_eq_true]
    have hmmem : m ∈ db'.modules := by
      rw [hmods]
      obtain ⟨x', hx', hk', hmem⟩ :=
        updateFirst_key_updated_mem SessionModule.id mid (fun _ => m) _ m0 hm0mem hm0id
      exact hmem
    exact ⟨m, hmmem, by simp [hmid, hmsid, hm, hmact]⟩
  · rw [List.all_eq_true]
    intro y hy
    rw [hmods] at hy
    rcases updateFirst_key_cases SessionModule.id mid (fun _ => m) _ hndsw y hy with
      ⟨x, hx, hxk, rfl⟩ | ⟨hyl, hyk⟩
    · simp [hmid]
    · by_cases hA : (y.session_id == sid && y.is_deleted == false &&
          y.is_active == true && y.id != mid) = true
      · exfalso
        rw [Bool.and_eq_true, Bool.and_eq_true, Bool.and_eq_true] at hA
        obtain ⟨⟨⟨hA1, hA2⟩, hA3⟩, hA4⟩ := hA
        obtain ⟨x, hx, hid, hses, hdel, hup, hforce, hkeep⟩ :=
          mem_deactivate_others db sid mid y hyl
        have : y.is_active = false := by
          refine hforce ?_ ?_ ?_
          · rw [← hses]; exact beq_iff_eq.mp hA1
          · rw [← hid]; exact bne_iff_ne.mp hA4
          · rw [← hdel]; exact beq_iff_eq.mp hA2
        rw [beq_iff_eq.mp hA3] at this
        cases this
      · rw [Bool.not_eq_true] at hA
        rw [hA]
        rfl
  · rw [List.all_eq_true]
    intro s hsmem
    rw [hsess] at hsmem
    rcases updateFirst_key_cases SessionRow.id sid
        (fun s => { s with active_module_id := some mid }) db.sessions hnd.2 s hsmem with
      ⟨x, hx, hxk, rfl⟩ | ⟨hsl, hsk⟩
    · simp
    · simp [hsk]

theorem nodup_key_updateFirst {α : Type} (key : α → Nat) (p : α → Bool)
    (f : α → α) (l : List α)
    (hf : ∀ x ∈ l, p x = true → key (f x) = key x)
    (hnd : (l.map key).Nodup) : ((updateFirst p f l).map key).Nodup := by
  rw [map_key_updateFirst key p f l hf]
  exact hnd

theorem step_preserves_nodup (db db' : ModuleDB) (h : ModuleStep db db')
    (hnd : module_tables_nodup db) : module_tables_nodup db' := by
  cases h with
  | activate sid mid m db' hact hdel =>
      obtain ⟨m0, hfind, hs, hm0, hmods, hsess⟩ :=
        set_active_module_inversion db sid mid m db' hact
      have hmid : m.id = mid := by
        rw [hm0]; have := List.find?_some hfind; simpa using this
      constructor
      · rw [hmods]
        refine nodup_key_updateFirst SessionModule.id _ _ _
          (fun x hx hp => by rw [hmid]; exact (by simpa using hp : x.id = mid).symm) ?_
        rw [deactivate_others_ids]
        exact hnd.1
      · rw [hsess]
        exact nodup_key_updateFirst SessionRow.id _ _ _ (fun x hx hp => rfl) hnd.2
  | softDelete now mid r db' hdel =>
      unfold SessionModuleRepo.soft_delete at hdel
      split at hdel
      · cases hdel; exact hnd
      next m0 hfind =>
        split at hdel
        · cases hdel; exact hnd
        next hnotdel =>
          cases hdel
          have hm0id : m0.id = mid := by
            have hfind' : db.modules.find? (fun x => x.id == mid) = some m0 := hfind
            have := List.find?_some hfind'
            simpa using this
          refine ⟨?_, ?_⟩
          · dsimp only
            exact nodup_key_updateFirst SessionModule.id _ _ _
              (fun x hx hp => by
                have hx2 : x.id = mid := by simpa using hp
                show m0.id = x.id
                rw [hx2, hm0id]) hnd.1
          · dsimp only
            by_cases hact : m0.is_active = true
            · rw [if_pos hact]
              exact nodup_key_updateFirst SessionRow.id _ _ _ (fun x hx hp => rfl) hnd.2
            · rw [if_neg hact]
              exact hnd.2
  | hardDelete now mid r db' hdel =>
      unfold SessionModuleRepo.delete at hdel
      rw [if_pos rfl] at hdel
      split at hdel
      · cases hdel; exact hnd
      next m0 hfind =>
        cases hdel
        refine ⟨?_, ?_⟩
        · dsimp only
          exact hnd.1.sublist (List.Sublist.map _ (removeFirst_sublist _ _))
        · dsimp only
          by_cases hact : m0.is_active = true
          · rw [if_pos hact]
            exact nodup_key_updateFirst SessionRow.id _ _ _ (fun x hx hp => rfl) hnd.2
          · rw [if_neg hact]
            exact hnd.2
  | deactivateAll sid =>
      unfold SessionModuleRepo.deactivate_all_modules
      refine ⟨?_, ?_⟩
      · dsimp only
        rw [List.map_map]
        have heq : (db.modules.map (SessionModule.id ∘ fun m =>
            if m.session_id == sid && m.is_deleted == false
            then { m with is_active := false } else m)) = db.modules.map SessionModule.id := by
          apply List.map_congr_left
          intro x hx
          by_cases hc : (x.session_id == sid && x.is_deleted == false) = true
          · rw [Function.comp_apply, if_pos hc]
          · rw [Function.comp_apply, if_neg hc]
        rw [heq]
        exact hnd.1
      · dsimp only
        exact nodup_key_updateFirst SessionRow.id _ _ _ (fun x hx hp => rfl) hnd.2

theorem session_row_of_updateFirst (sessions : List SessionRow)
    (p : SessionRow → Bool) (f : SessionRow → SessionRow) (s : SessionRow)
    (hs : s ∈ updateFirst p f sessions)
    (hf : ∀ x, (f x).id = x.id) : ∃ s0 ∈ sessions, s0.id = s.id := by
  rcases mem_updateFirst p f sessions s hs with h | ⟨x, hx, hpx, rfl⟩
  · exact ⟨s, h, rfl⟩
  · exact ⟨x, hx, (hf x).symm⟩

theorem step_preserves_invariant (db db' : ModuleDB) (h : ModuleStep db db')
    (hnd : module_tables_nodup db)
    (hone : at_most_one_active db) (hptr : pointer_consistent db) :
    at_most_one_active db' ∧ pointer_consistent db' := by
  cases h with
  | activate sid mid m db' hact hdelm =>
      obtain ⟨m0, hfind, hs0, hm0, hmods, hsess⟩ :=
        set_active_module_inversion db sid mid m db' hact
      have hm0mem : m0 ∈ SessionModuleRepo.deactivate_others db sid mid :=
        List.mem_of_find?_eq_some hfind
      have hm0id : m0.id = mid := by
        have := List.find?_some hfind; simpa using this
      have hndsw : ((SessionModuleRepo.deactivate_others db sid mid).map
          SessionModule.id).Nodup := by
        rw [deactivate_others_ids]; exact hnd.1
      have hmid : m.id = mid := by rw [hm0]; exact hm0id
      have hmsid : m.session_id = sid := by rw [hm0]; exact hs0
      have hmact : m.is_active = true := by rw [hm0]
      -- decomposition of a post-state module
      have hdecomp : ∀ y ∈ db'.modules, y = m ∨
          (y ∈ SessionModuleRepo.deactivate_others db sid mid ∧ y.id ≠ mid) := by
        intro y hy
        rw [hmods] at hy
        rcases updateFirst_key_cases SessionModule.id mid (fun _ => m) _ hndsw y hy with
          ⟨x, hx, hxk, rfl⟩ | ⟨hyl, hyk⟩
        · exact Or.inl rfl
        · exact Or.inr ⟨hyl, hyk⟩
      -- an active, non-deleted post-state module is m or lives outside session sid
      have hactive_shape : ∀ y ∈ db'.modules, y.is_deleted = false →
          y.is_active = true → y = m ∨ (y ∈ db.modules ∧ y.session_id ≠ sid) := by
        intro y hy hydel hyact
        rcases hdecomp y hy with rfl | ⟨hyl, hyk⟩
        · exact Or.inl rfl
        · obtain ⟨x, hx, hid, hses, hdel, hup, hforce, hkeep⟩ :=
            mem_deactivate_others db sid mid y hyl
          by_cases hsy : x.session_id = sid
          · exfalso
            have : y.is_active = false := by
              refine hforce hsy ?_ ?_
              · rw [← hid]; exact hyk
              · rw [← hdel]; exact hydel
            rw [hyact] at this
            cases this
          · have hyx : y = x := hkeep (fun hc => hsy hc.1)
            refine Or.inr ⟨hyx ▸ hx, ?_⟩
            rw [hses]
            exact hsy
      constructor
      · intro s hsmem m1 hm1 m2 hm2 hses1 hses2 hdel1 hdel2 hact1 hact2
        rw [hsess] at hsmem
        rcases hactive_shape m1 hm1 hdel1 hact1 with rfl | ⟨hm1db, hm1ne⟩ <;>
          rcases hactive_shape m2 hm2 hdel2 hact2 with h2 | ⟨hm2db, hm2ne⟩
        · rw [h2]
        · exfalso
          apply hm2ne
          rw [hses2, ← hses1, hmsid]
        · exfalso
          rw [h2] at hses2
          apply hm1ne
          rw [hses1, ← hses2, hmsid]
        · -- both old modules outside session sid
          obtain ⟨s0, hs0mem, hs0id⟩ :=
            session_row_of_updateFirst db.sessions _ _ s hsmem (fun x => rfl)
          exact hone s0 hs0mem m1 hm1db m2 hm2db (hs0id ▸ hses1) (hs0id ▸ hses2)
            hdel1 hdel2 hact1 hact2
      · intro s hsmem x hx
        rw [hsess] at hsmem
        rcases updateFirst_key_cases SessionRow.id sid
            (fun s => { s with active_module_id := some mid }) db.sessions hnd.2 s hsmem with
          ⟨x0, hx0, hx0id, rfl⟩ | ⟨hsl, hsk⟩
        · have hxmid : x = mid := by
            have : some mid = some x := hx
            exact (Option.some_inj.mp this).symm
          have hmmem : m ∈ db'.modules := by
            rw [hmods]
            obtain ⟨x', hx', hk', hmem⟩ :=
              updateFirst_key_updated_mem SessionModule.id mid (fun _ => m) _ m0 hm0mem hm0id
            exact hmem
          exact ⟨m, hmmem, by rw [hmid, hxmid], by rw [hmsid]; exact hx0id.symm, hdelm, hmact⟩
        · obtain ⟨y, hy, hyid, hyses, hydel, hyact⟩ := hptr s hsl x hx
          have hysid : y.session_id ≠ sid := by rw [hyses]; exact hsk
          have hcond : (y.session_id == sid && y.id != mid && y.is_deleted == false) = false := by
            have h1 : (y.session_id == sid) = false := by simpa using hysid
            rw [h1, Bool.false_and, Bool.false_and]
          have hysw : y ∈ SessionModuleRepo.deactivate_others db sid mid :=
            deactivate_others_keeps db sid mid y hy hcond
          have hymid : y.id ≠ mid := by
            intro hyk
            have : y = m0 := nodup_key_eq SessionModule.id _ hndsw y m0 hysw hm0mem
              (by rw [hyk, hm0id])
            rw [this, hs0] at hysid
            exact hysid rfl
          refine ⟨y, ?_, hyid, hyses, hydel, hyact⟩
          rw [hmods]
          exact mem_updateFirst_of_not_p _ _ _ y hysw (by simpa using hymid)
  | softDelete now mid r db' hdel =>
      unfold SessionModuleRepo.soft_delete at hdel
      split at hdel
      · cases hdel; exact ⟨hone, hptr⟩
      next m0 hfind =>
        split at hdel
        · cases hdel; exact ⟨hone, hptr⟩
        next hnotdel =>
          cases hdel
          have hfind' : db.modules.find? (fun x => x.id == mid) = some m0 := hfind
          have hm0mem : m0 ∈ db.modules := List.mem_of_find?_eq_some hfind'
          have hm0id : m0.id = mid := by
            have := List.find?_some hfind'; simpa using this
          constructor
          · intro s hsmem m1 hm1 m2 hm2 hses1 hses2 hdel1 hdel2 hact1 hact2
            dsimp only at hsmem hm1 hm2
            have hmod : ∀ (f : SessionModule → SessionModule),
                (∀ z, (f z).is_active = false) →
                ∀ y, y ∈ updateFirst (fun x => x.id == mid) f db.modules →
                y.is_active = true → y ∈ db.modules := by
              intro f hf y hy hyact
              rcases mem_updateFirst _ _ _ y hy with h' | ⟨x, hx, hpx, rfl⟩
              · exact h'
              · rw [hf x] at hyact; cases hyact
            have hm1db := hmod _ (fun z => rfl) m1 hm1 hact1
            have hm2db := hmod _ (fun z => rfl) m2 hm2 hact2
            have hsrow : ∃ s0 ∈ db.sessions, s0.id = s.id := by
              by_cases hact : m0.is_active = true
              · rw [if_pos hact] at hsmem
                exact session_row_of_updateFirst db.sessions _ _ s hsmem (fun x => rfl)
              · rw [if_neg hact] at hsmem
                exact ⟨s, hsmem, rfl⟩
            obtain ⟨s0, hs0mem, hs0id⟩ := hsrow
            exact hone s0 hs0mem m1 hm1db m2 hm2db (hs0id ▸ hses1) (hs0id ▸ hses2)
              hdel1 hdel2 hact1 hact2
          · intro s hsmem x hx
            dsimp only at hsmem ⊢
            have hsurv : ∀ (f : SessionModule → SessionModule) (y : SessionModule),
                y ∈ db.modules → y.id ≠ mid →
                y ∈ updateFirst (fun z => z.id == mid) f db.modules :=
              fun f y hy hyk =>
                mem_updateFirst_of_not_p _ _ _ y hy (by simpa using hyk)
            by_cases hact : m0.is_active = true
            · rw [if_pos hact] at hsmem
              rcases updateFirst_key_cases SessionRow.id m0.session_id
                  (fun s => { s with active_module_id := none }) db.sessions hnd.2 s hsmem with
                ⟨x0, hx0, hx0id, rfl⟩ | ⟨hsl, hsk⟩
              · cases hx
              · obtain ⟨y, hy, hyid, hyses, hydel, hyact⟩ := hptr s hsl x hx
                have hymid : y.id ≠ mid := by
                  intro hyk
                  have : y = m0 := nodup_key_eq SessionModule.id _ hnd.1 y m0 hy hm0mem
                    (by rw [hyk, hm0id])
                  rw [this] at hyses
                  exact hsk hyses.symm
                exact ⟨y, hsurv _ y hy hymid, hyid, hyses, hydel, hyact⟩
            · rw [if_neg hact] at hsmem
              obtain ⟨y, hy, hyid, hyses, hydel, hyact⟩ := hptr s hsmem x hx
              have hymid : y.id ≠ mid := by
                intro hyk
                have : y = m0 := nodup_key_eq SessionModule.id _ hnd.1 y m0 hy hm0mem
                  (by rw [hyk, hm0id])
                rw [this] at hyact
                exact hact hyact
              exact ⟨y, hsurv _ y hy hymid, hyid, hyses, hydel, hyact⟩
  | hardDelete now mid r db' hdel =>
      unfold SessionModuleRepo.delete at hdel
      rw [if_pos rfl] at hdel
      split at hdel
      · cases hdel; exact ⟨hone, hptr⟩
      next m0 hfind =>
        cases hdel
        have hm0mem : m0 ∈ db.modules := List.mem_of_find?_eq_some hfind
        have hm0id : m0.id = mid := by
          have := List.find?_some hfind; simpa using this
        constructor
        · intro s hsmem m1 hm1 m2 hm2 hses1 hses2 hdel1 hdel2 hact1 hact2
          dsimp only at hsmem hm1 hm2
          have hm1db : m1 ∈ db.modules := (removeFirst_sublist _ _).mem hm1
          have hm2db : m2 ∈ db.modules := (removeFirst_sublist _ _).mem hm2
          have hsrow : ∃ s0 ∈ db.sessions, s0.id = s.id := by
            by_cases hact : m0.is_active = true
            · rw [if_pos hact] at hsmem
              exact session_row_of_updateFirst db.sessions _ _ s hsmem (fun x => rfl)
            · rw [if_neg hact] at hsmem
              exact ⟨s, hsmem, rfl⟩
          obtain ⟨s0, hs0mem, hs0id⟩ := hsrow
          exact hone s0 hs0mem m1 hm1db m2 hm2db (hs0id ▸ hses1) (hs0id ▸ hses2)
            hdel1 hdel2 hact1 hact2
        · intro s hsmem x hx
          dsimp only at hsmem ⊢
          by_cases hact : m0.is_active = true
          · rw [if_pos hact] at hsmem
            rcases updateFirst_key_cases SessionRow.id m0.session_id
                (fun s => { s with active_module_id := none }) db.sessions hnd.2 s hsmem with
              ⟨x0, hx0, hx0id, rfl⟩ | ⟨hsl, hsk⟩
            · cases hx
            · obtain ⟨y, hy, hyid, hyses, hydel, hyact⟩ := hptr s hsl x hx
              have hymid : y.id ≠ mid := by
                intro hyk
                have : y = m0 := nodup_key_eq SessionModule.id _ hnd.1 y m0 hy hm0mem
                  (by rw [hyk, hm0id])
                rw [this] at hyses
                exact hsk hyses.symm
              exact ⟨y, mem_removeFirst_of_not_p _ _ y hy (by simpa using hymid),
                hyid, hyses, hydel, hyact⟩
          · rw [if_neg hact] at hsmem
            obtain ⟨y, hy, hyid, hyses, hydel, hyact⟩ := hptr s hsmem x hx
            have hymid : y.id ≠ mid := by
              intro hyk
              have : y = m0 := nodup_key_eq SessionModule.id _ hnd.1 y m0 hy hm0mem
                (by rw [hyk, hm0id])
              rw [this] at hyact
              exact hact hyact
            exact ⟨y, mem_removeFirst_of_not_p _ _ y hy (by simpa using hymid),
              hyid, hyses, hydel, hyact⟩
  | deactivateAll sid =>
      unfold SessionModuleRepo.deactivate_all_modules
      constructor
      · intro s hsmem m1 hm1 m2 hm2 hses1 hses2 hdel1 hdel2 hact1 hact2
        dsimp only at hsmem hm1 hm2
        have hmod : ∀ y, y ∈ db.modules.map (fun m =>
            if m.session_id == sid && m.is_deleted == false
            then { m with is_active := false } else m) →
            y.is_active = true → y ∈ db.modules := by
          intro y hy hyact
          obtain ⟨x, hx, hgx⟩ := List.mem_map.mp hy
          by_cases hc : (x.session_id == sid && x.is_deleted == false) = true
          · rw [if_pos hc] at hgx
            rw [← hgx] at hyact
            cases hyact
          · rw [if_neg hc] at hgx
            exact hgx ▸ hx
        obtain ⟨s0, hs0mem, hs0id⟩ := session_row_of_updateFirst db.sessions _ _ s hsmem (fun x => rfl)
        exact hone s0 hs0mem m1 (hmod m1 hm1 hact1) m2 (hmod m2 hm2 hact2)
          (hs0id ▸ hses1) (hs0id ▸ hses2) hdel1 hdel2 hact1 hact2
      · intro s hsmem x hx
        dsimp only at hsmem ⊢
        rcases updateFirst_key_cases SessionRow.id sid
            (fun s => { s with active_module_id := none }) db.sessions hnd.2 s hsmem with
          ⟨x0, hx0, hx0id, rfl⟩ | ⟨hsl, hsk⟩
        · cases hx
        · obtain ⟨y, hy, hyid, hyses, hydel, hyact⟩ := hptr s hsl x hx
          have hcond : (y.session_id == sid && y.is_deleted == false) = false := by
            have h1 : (y.session_id == sid) = false := by
              have : y.session_id ≠ sid := by rw [hyses]; exact hsk
              simpa using this
            rw [h1, Bool.false_and]
          refine ⟨y, ?_, hyid, hyses, hydel, hyact⟩
          refine List.mem_map.mpr ⟨y, hy, ?_⟩
          rw [if_neg (by rw [hcond]; exact Bool.false_ne_true)]

theorem soft_delete_active_post (db : ModuleDB) (now : Int) (mid : Nat)
    (m0 m : SessionModule) (db' : ModuleDB)
    (hnd : module_tables_nodup db)
    (hfind0 : SessionModuleRepo.get_by_id db mid = some m0)
    (hact0 : m0.is_active = true)
    (hdel : SessionModuleRepo.soft_delete db now mid = (some m, db')) :
    m.is_active = false ∧ m.is_deleted = true ∧
      db'.sessions.all (fun s => s.id != m0.session_id ||
        s.active_module_id == none) = true := by
  unfold SessionModuleRepo.soft_delete at hdel
  split at hdel
  · exact absurd (congrArg Prod.fst hdel) (by simp)
  next m0' hf =>
    have hm0'eq : m0 = m0' := by
      rw [hfind0] at hf
      exact Option.some_inj.mp hf
    subst hm0'eq
    split at hdel
    · exact absurd (congrArg Prod.fst hdel) (by simp)
    next hnotdel =>
      injection hdel with hfst hsnd
      injection hfst with hfst
      refine ⟨by rw [← hfst], by rw [← hfst], ?_⟩
      rw [← hsnd]
      try dsimp only
      try rw [if_pos hact0]
      rw [List.all_eq_true]
      intro s hs
      rcases updateFirst_key_cases SessionRow.id m0.session_id
          (fun s => { s with active_module_id := none }) db.sessions hnd.2 s hs with
        ⟨x0, hx0, hx0id, rfl⟩ | ⟨hsl, hsk⟩
      · simp
      · simp [hsk]

theorem hard_delete_active_post (db : ModuleDB) (now : Int) (mid : Nat)
    (m : SessionModule) (db' : ModuleDB)
    (hnd : module_tables_nodup db)
    (hdel : SessionModuleRepo.delete db now mid true = (some m, db'))
    (hact : m.is_active = true) :
    db'.sessions.all (fun s => s.id != m.session_id ||
      s.active_module_id == none) = true ∧
    db'.modules.all (fun x => x.id != mid) = true := by
  unfold SessionModuleRepo.delete at hdel
  rw [if_pos rfl] at hdel
  split at hdel
  · exact absurd (congrArg Prod.fst hdel) (by simp)
  next m0 hf =>
    injection hdel with hfst hsnd
    injection hfst with hfst
    subst hfst
    constructor
    · rw [← hsnd]
      try dsimp only
      try rw [if_pos hact]
      rw [List.all_eq_true]
      intro s hs
      rcases updateFirst_key_cases SessionRow.id m0.session_id
          (fun s => { s with active_module_id := none }) db.sessions hnd.2 s hs with
        ⟨x0, hx0, hx0id, rfl⟩ | ⟨hsl, hsk⟩
      · simp
      · simp [hsk]
    · rw [← hsnd]
      dsimp only
      rw [List.all_eq_true]
      intro y hy
      have := removeFirst_key_not_key SessionModule.id mid db.modules hnd.1 y hy
      simpa using this

/-- C1 amended: provided the target module M is not soft-deleted, after
set_active_module(session, M) succeeds M is the only non-deleted module of
that session with is_active = true and the session's active_module_id equals
M's id; after deleting the currently active module (soft or hard) the module
is deactivated (soft) or removed (hard) and the session's active_module_id
is cleared to null; and every committed operation preserves the invariant
that per session at most one non-deleted module is active and
active_module_id names a non-deleted active module of the session or is
null (primary keys assumed unique). -/
theorem C1_module_activation_amended :
    (∀ (db : ModuleDB) (sid mid : Nat) (m : SessionModule) (db' : ModuleDB),
        module_tables_nodup db →
        SessionModuleRepo.set_active_module db sid mid = (some m, db') →
        m.is_deleted = false → c1_activation_post db' sid mid = true) ∧
    (∀ (db : ModuleDB) (now : Int) (mid : Nat) (m0 m : SessionModule) (db' : ModuleDB),
        module_tables_nodup db →
        SessionModuleRepo.get_by_id db mid = some m0 → m0.is_active = true →
        SessionModuleRepo.soft_delete db now mid = (some m, db') →
        m.is_active = false ∧ m.is_deleted = true ∧
          db'.sessions.all (fun s => s.id != m0.session_id ||
            s.active_module_id == none) = true) ∧
    (∀ (db : ModuleDB) (now : Int) (mid : Nat) (m : SessionModule) (db' : ModuleDB),
        module_tables_nodup db →
        SessionModuleRepo.delete db now mid true = (some m, db') →
        m.is_active = true →
        db'.sessions.all (fun s => s.id != m.session_id ||
          s.active_module_id == none) = true ∧
        db'.modules.all (fun x => x.id != mid) = true) ∧
    (∀ (db db' : ModuleDB), ModuleStep db db' → module_tables_nodup db →
        at_most_one_active db → pointer_consistent db →
        module_tables_nodup db' ∧ at_most_one_active db' ∧ pointer_consistent db') :=
  ⟨fun db sid mid m db' hnd h hm => set_active_module_post db sid mid m db' hnd h hm,
   fun db now mid m0 m db' hnd hf ha hd =>
     soft_delete_active_post db now mid m0 m db' hnd hf ha hd,
   fun db now mid m db' hnd hd ha => hard_delete_active_post db now mid m db' hnd hd ha,
   fun db db' hstep hnd hone hptr =>
     ⟨step_preserves_nodup db db' hstep hnd,
      (step_preserves_invariant db db' hstep hnd hone hptr).1,
      (step_preserves_invariant db db' hstep hnd hone hptr).2⟩⟩

/-- Concrete two-module session for the C1 witness: module 1 is active. -/
def c1_wit_db : ModuleDB :=
  { sessions := [{ id := 10, workspace_id := 1, passcode := none,
                   is_stopped := false, active_module_id := some 1 }]
    modules := [{ id := 1, session_id := 10, module_type := "questions",
                  is_active := true },
                { id := 2, session_id := 10, module_type := "timer" }] }

/-- The value returned by activating module 2 of `c1_wit_db`. -/
def c1_wit_module : SessionModule :=
  { id := 2, session_id := 10, module_type := "timer", is_active := true }

/-- C1 witness: activation of module 2 (while module 1 is active) yields the
claimed exclusive post-state, soft-deleting the active module clears the
back-reference, hard-deleting the active module removes it and clears the
back-reference, and the activation step preserves the invariant. -/
theorem C1_module_activation_amended_witness :
    c1_activation_post (SessionModuleRepo.set_active_module c1_wit_db 10 2).2 10 2 = true ∧
    ((SessionModuleRepo.soft_delete c1_wit_db 5 1).2.sessions.all
      (fun s => s.id != 10 || s.active_module_id == none) = true) ∧
    ((SessionModuleRepo.delete c1_wit_db 5 1 true).2.modules.all
      (fun x => x.id != 1) = true) ∧
    at_most_one_active (SessionModuleRepo.set_active_module c1_wit_db 10 2).2 :=
  ⟨C1_module_activation_amended.1 c1_wit_db 10 2 c1_wit_module
     (SessionModuleRepo.set_active_module c1_wit_db 10 2).2 ⟨by decide, by decide⟩ rfl rfl,
   (C1_module_activation_amended.2.1 c1_wit_db 5 1
     { id := 1, session_id := 10, module_type := "questions", is_active := true }
     { id := 1, session_id := 10, module_type := "questions", is_active := false,
       is_deleted := true, deleted_at := some 5 }
     (SessionModuleRepo.soft_delete c1_wit_db 5 1).2 ⟨by decide, by decide⟩ rfl rfl rfl).2.2,
   (C1_module_activation_amended.2.2.1 c1_wit_db 5 1
     { id := 1, session_id := 10, module_type := "questions", is_active := true }
     (SessionModuleRepo.delete c1_wit_db 5 1 true).2 ⟨by decide, by decide⟩ rfl rfl).2,
   ((C1_module_activation_amended.2.2.2 c1_wit_db
      (SessionModuleRepo.set_active_module c1_wit_db 10 2).2
      (ModuleStep.activate c1_wit_db 10 2 c1_wit_module
        (SessionModuleRepo.set_active_module c1_wit_db 10 2).2 rfl rfl)
      ⟨by decide, by decide⟩ (by unfold at_most_one_active; decide)
      (by unfold pointer_consistent; decide)).2.1)⟩

/-! ## C4: services/session_service.py delete_session -/

/-- The tables touched by session deletion. -/
structure CoreDB where
  workspaces : List Workspace
  sessions : List SessionRow
deriving DecidableEq

namespace WorkspaceRepository

/-- `get_by_id` (repositories/workspace_repository.py): non-deleted only. -/
def get_by_id (db : CoreDB) (workspace_id : Nat) : Option Workspace :=
  db.workspaces.find? (fun w => w.id == workspace_id && w.is_deleted == false)

end WorkspaceRepository

namespace SessionRepository

/-- `get_by_id` (repositories/session_repository.py, lines 11-17):
non-deleted only. -/
def get_by_id (db : CoreDB) (session_id : Nat) : Option SessionRow :=
  db.sessions.find? (fun s => s.id == session_id && s.is_deleted == false)

/-- `soft_delete` (lines 211-220). -/
def soft_delete (db : CoreDB) (now : Int) (session_id : Nat) :
    Option SessionRow × CoreDB :=
  match get_by_id db session_id with
  | none => (none, db)
  | some s =>
      if s.is_deleted then (none, db)
      else
        let s' := { s with is_deleted := true, deleted_at := some now }
        (some s',
          { db with
              sessions := updateFirst (fun r => r.id == session_id)
                (fun _ => s') db.sessions })

/-- `delete` (lines 238-250): soft delegation or hard removal (the hard query
has no `is_deleted` filter). -/
def delete (db : CoreDB) (now : Int) (session_id : Nat) (hard : Bool) :
    Option SessionRow × CoreDB :=
  if hard then
    match db.sessions.find? (fun s => s.id == session_id) with
    | none => (none, db)
    | some s =>
        (some s,
          { db with
              sessions := removeFirst (fun r => r.id == session_id) db.sessions })
  else soft_delete db now session_id

end SessionRepository

namespace SessionService

/-- `delete_session` (services/session_service.py, lines 227-273): ownership
check, then the running-check (applied before either deletion kind), then the
repository delete. -/
def delete_session (db : CoreDB) (now : Int) (session_id user_id : Nat)
    (hard : Bool) : Except String (Option (SessionRow × CoreDB)) :=
  match SessionRepository.get_by_id db session_id with
  | none => Except.ok none
  | some session =>
      match WorkspaceRepository.get_by_id db session.workspace_id with
      | none => Except.error "Session not found or access denied"
      | some workspace =>
          if workspace.user_id != user_id then
            Except.error "Session not found or access denied"
          else if !session.is_stopped then
            Except.error "Cannot delete session that is currently running"
          else
            match SessionRepository.delete db now session_id hard with
            | (none, _) => Except.ok none
            | (some s, db') => Except.ok (some (s, db'))

end SessionService

/-- Owned, currently running (is_stopped = false) session for C4. -/
def c4_db : CoreDB :=
  { workspaces := [{ id := 1, user_id := 7, is_deleted := false }]
    sessions := [{ id := 1, workspace_id := 1, passcode := some "ABCDEF",
                   is_stopped := false }] }

/-- C4 counterexample: requesting a hard delete of a running session owned by
the caller is rejected with the running-error — the running-check is applied
before the hard/soft branch, so hard-delete does not bypass it. -/
theorem C4_delete_session_counterexample :
    SessionService.delete_session c4_db 0 1 7 true =
      Except.error "Cannot delete session that is currently running" := by
  decide

/-- The row written by a successful session soft delete. -/
def soft_deleted_session_row (s : SessionRow) (now : Int) : SessionRow :=
  { s with is_deleted := true, deleted_at := some now }

/-- The table state after a successful session soft delete. -/
def c4_soft_db (db : CoreDB) (now : Int) (sid : Nat) (s : SessionRow) : CoreDB :=
  { db with
      sessions := updateFirst (fun r => r.id == sid)
        (fun _ => soft_deleted_session_row s now) db.sessions }

/-- The table state after a successful session hard delete. -/
def c4_hard_db (db : CoreDB) (sid : Nat) : CoreDB :=
  { db with sessions := removeFirst (fun r => r.id == sid) db.sessions }

/-- C4 amended: for a session owned by the caller, delete_session rejects a
running session with the running-error for both hard = false and hard = true;
once the session is stopped both kinds succeed — soft delete marks the row
deleted (it is no longer retrievable), hard delete removes it. -/
theorem C4_delete_session_amended (db : CoreDB) (now : Int) (sid uid : Nat)
    (s : SessionRow) (w : Workspace)
    (hnd : (db.sessions.map SessionRow.id).Nodup)
    (hs : SessionRepository.get_by_id db sid = some s)
    (hw : WorkspaceRepository.get_by_id db s.workspace_id = some w)
    (huid : w.user_id = uid) :
    (s.is_stopped = false → ∀ hard, SessionService.delete_session db now sid uid hard =
        Except.error "Cannot delete session that is currently running") ∧
    (s.is_stopped = true →
      (∃ s' db', SessionService.delete_session db now sid uid false =
          Except.ok (some (s', db')) ∧
        s'.is_deleted = true ∧ SessionRepository.get_by_id db' sid = none) ∧
      (∃ s' db', SessionService.delete_session db now sid uid true =
          Except.ok (some (s', db')) ∧
        ∀ r ∈ db'.sessions, r.id ≠ sid)) := by
  have hsmem : s ∈ db.sessions := by
    have : s ∈ db.sessions := List.mem_of_find?_eq_some hs
    exact this
  have hsprop := List.find?_some hs
  rw [Bool.and_eq_true] at hsprop
  have hsid : s.id = sid := by simpa using hsprop.1
  have hsdel : s.is_deleted = false := by simpa using hsprop.2
  have huidb : (w.user_id != uid) = false := by simp [huid]
  constructor
  · intro hrun hard
    unfold SessionService.delete_session
    simp only [hs, hw, huidb, hrun]
    rfl
  · intro hstop
    constructor
    · -- soft delete
      refine ⟨soft_deleted_session_row s now, c4_soft_db db now sid s, ?_, rfl, ?_⟩
      · unfold SessionService.delete_session SessionRepository.delete
          SessionRepository.soft_delete
        simp only [hs, hw, huidb]
        rw [if_neg (show ¬((!s.is_stopped) = true) from by rw [hstop]; simp)]
        rw [if_neg (show ¬(s.is_deleted = true) from by rw [hsdel]; simp)]
        rfl
      · unfold c4_soft_db SessionRepository.get_by_id
        dsimp only
        rw [List.find?_eq_none]
        intro r hr
        rcases updateFirst_key_cases SessionRow.id sid
            (fun _ => soft_deleted_session_row s now)
            db.sessions hnd r hr with ⟨x, hx, hxk, rfl⟩ | ⟨hrl, hrk⟩
        · simp [soft_deleted_session_row]
        · simp [hrk]
    · -- hard delete
      rcases hq : db.sessions.find? (fun r => r.id == sid) with _ | s0
      · exfalso
        rw [List.find?_eq_none] at hq
        exact absurd (by simpa using hsid) (by simpa using hq s hsmem)
      · refine ⟨s0, c4_hard_db db sid, ?_, ?_⟩
        · unfold SessionService.delete_session SessionRepository.delete
          simp only [hs, hw, huidb, hq]
          rw [if_neg (show ¬((!s.is_stopped) = true) from by rw [hstop]; simp)]
          rfl
        · intro r hr
          exact removeFirst_key_not_key SessionRow.id sid db.sessions hnd r hr

/-- Owned, stopped session for the C4 witness. -/
def c4_stopped_db : CoreDB :=
  { workspaces := [{ id := 1, user_id := 7, is_deleted := false }]
    sessions := [{ id := 1, workspace_id := 1, passcode := some "ABCDEF",
                   is_stopped := true }] }

/-- C4 witness: a stopped owned session — soft delete succeeds and hides the
row, hard delete succeeds and removes it; plus the rejection of retrieval of
the soft-deleted row, evaluated concretely. -/
theorem C4_delete_session_amended_witness :
    (∃ s' db', SessionService.delete_session c4_stopped_db 0 1 7 false =
        Except.ok (some (s', db')) ∧
      s'.is_deleted = true ∧ SessionRepository.get_by_id db' 1 = none) ∧
    (∃ s' db', SessionService.delete_session c4_stopped_db 0 1 7 true =
        Except.ok (some (s', db')) ∧
      ∀ r ∈ db'.sessions, r.id ≠ 1) :=
  (C4_delete_session_amended c4_stopped_db 0 1 7
    { id := 1, workspace_id := 1, passcode := some "ABCDEF", is_stopped := true }
    { id := 1, user_id := 7, is_deleted := false }
    (by decide) rfl rfl rfl).2 rfl

/-! ## C2, C3: services/session_join_service.py join_registered -/

/-- models/user.py (fields used by join_registered). -/
structure User where
  id : Nat
  email : String
  first_name : Option String := none
  last_name : Option String := none
  is_deleted : Bool := false
deriving DecidableEq

/-- models/session_participant.py. -/
structure Participant where
  id : Nat
  session_id : Nat
  participant_type : String
  user_id : Option Nat := none
  guest_email : Option String := none
  organization_id : Option Nat := none
  display_name : Option String := none
  anonymous_slug : Option String := none
  last_heartbeat_at : Option Int := none
  is_banned : Bool := false
  is_deleted : Bool := false
  created_at : Int := 0
deriving DecidableEq

/-- The tables touched by the join protocol; `next_participant_id` models the
autoincrement primary key, and participants are appended in creation order
(so list order is `created_at` order). -/
structure JoinDB where
  sessions : List SessionRow
  users : List User
  participants : List Participant
  next_participant_id : Nat
deriving DecidableEq

namespace SessionRepositoryJoin

/-- Modelled from the spec: `SessionRepository.get_by_passcode` is declared
by its callers but missing from the sources; the spec says join looks the
session up by its unique passcode, and soft-deleted sessions are not
joinable. -/
def get_by_passcode (db : JoinDB) (passcode : String) : Option SessionRow :=
  db.sessions.find? (fun s => s.passcode == some passcode && s.is_deleted == false)

/-- Modelled from the spec: `SessionRepository.get_settings` is missing from
the sources; since migration 019 a session stores its full effective-settings
snapshot in the single `settings` column, which this returns. -/
def get_settings (session : SessionRow) : EffectiveSettings :=
  session.settings

end SessionRepositoryJoin

namespace UserRepository

/-- `get_by_id` (repositories/user_repository.py, lines 14-18): by primary
key, no `is_deleted` filter. -/
def get_by_id (db : JoinDB) (user_id : Nat) : Option User :=
  db.users.find? (fun u => u.id == user_id)

end UserRepository

namespace SessionParticipantRepository

/-- `get_by_session_and_user` (lines 24-31). -/
def get_by_session_and_user (db : JoinDB) (session_id user_id : Nat) :
    Option Participant :=
  db.participants.find? (fun p =>
    p.session_id == session_id && p.user_id == some user_id && p.is_deleted == false)

/-- `get_by_session_id` (lines 42-48): all non-deleted participants of the
session ordered by `created_at` (list order), regardless of heartbeat. -/
def get_by_session_id (db : JoinDB) (session_id : Nat) : List Participant :=
  db.participants.filter (fun p =>
    p.session_id == session_id && p.is_deleted == false)

/-- `create` (lines 68-90): append the new row, assigning the next id. -/
def create (db : JoinDB) (session_id : Nat) (participant_type : String)
    (user_id : Option Nat) (guest_email : Option String)
    (display_name : Option String) (anonymous_slug : Option String) :
    Participant × JoinDB :=
  let p : Participant :=
    { id := db.next_participant_id, session_id := session_id,
      participant_type := participant_type, user_id := user_id,
      guest_email := guest_email, display_name := display_name,
      anonymous_slug := anonymous_slug }
  (p, { db with
          participants := db.participants ++ [p]
          next_participant_id := db.next_participant_id + 1 })

end SessionParticipantRepository

/-- What `join_registered` returns to the endpoint. -/
structure JoinResult where
  participant_id : Nat
  session_id : Nat
  display_name : Option String
deriving DecidableEq

/-- Python `s.strip()` (drop leading and trailing whitespace), modelled on
the character list. -/
def py_strip (s : String) : String :=
  String.mk
    (((s.toList.dropWhile Char.isWhitespace).reverse.dropWhile
      Char.isWhitespace).reverse)

/-- Python `a or b` for an optional string (`None` and `""` are falsy). -/
def py_str_or (a : Option String) (b : Option String) : Option String :=
  match a with
  | some s => if s == "" then b else some s
  | none => b

namespace SessionJoinService

/-- `_check_max_participants` (lines 43-49): total non-deleted participant
rows, compared against the effective `max_participants` when set. -/
def check_max_participants (db : JoinDB) (session_id : Nat)
    (merged : EffectiveSettings) : Except String Unit :=
  match merged.max_participants with
  | none => Except.ok ()
  | some max_p =>
      if ((SessionParticipantRepository.get_by_session_id db session_id).length : Int)
          ≥ max_p then
        Except.error "Maximum participants reached"
      else Except.ok ()

/-- The display-name default of `join_registered` (line 169):
`(first_name or "").strip() or (last_name or "").strip() or email or None`. -/
def registered_display_name (user : User) : Option String :=
  let a := py_strip (user.first_name.getD "")
  if a != "" then some a
  else
    let b := py_strip (user.last_name.getD "")
    if b != "" then some b
    else if user.email != "" then some user.email else none

/-- `join_registered` (lines 156-195): look the session up by passcode,
require it started and in registered mode, look the user up, return the
existing participant idempotently if present (no capacity re-check),
otherwise capacity-check and create. -/
def join_registered (db : JoinDB) (passcode : String) (user_id : Nat) :
    Except String (JoinResult × JoinDB) :=
  match SessionRepositoryJoin.get_by_passcode db passcode with
  | none => Except.error "Session not found"
  | some session =>
      if session.is_stopped then Except.error "Session has not started yet"
      else
        let merged := SessionRepositoryJoin.get_settings session
        let mode := merged.participant_entry_mode.getD "anonymous"
        if mode != "registered" then
          Except.error ("Session is not in registered entry mode (current: " ++ mode ++ ")")
        else
          match UserRepository.get_by_id db user_id with
          | none => Except.error "User not found"
          | some user =>
              let disp := registered_display_name user
              match SessionParticipantRepository.get_by_session_and_user db
                  session.id user_id with
              | some existing =>
                  Except.ok
                    ({ participant_id := existing.id, session_id := session.id,
                       display_name := py_str_or existing.display_name disp }, db)
              | none =>
                  match check_max_participants db session.id merged with
                  | Except.error e => Except.error e
                  | Except.ok _ =>
                      let r := SessionParticipantRepository.create db session.id
                        "user" (some user_id) none disp none
                      Except.ok
                        ({ participant_id := r.1.id, session_id := session.id,
                           display_name := r.1.display_name }, r.2)

end SessionJoinService

/-- `registered_display_name` never produces `some ""`, so Python's
`existing.display_name or disp` applied to it twice is the identity. -/
lemma py_str_or_registered_self (u : User) :
    py_str_or (SessionJoinService.registered_display_name u)
      (SessionJoinService.registered_display_name u) =
      SessionJoinService.registered_display_name u := by
  unfold SessionJoinService.registered_display_name
  dsimp only
  split
  · rename_i h
    simp only [py_str_or]
    rw [if_neg]
    simpa using h
  · split
    · rename_i h
      simp only [py_str_or]
      rw [if_neg]
      simpa using h
    · split
      · rename_i h
        simp only [py_str_or]
        rw [if_neg]
        simpa using h
      · rfl

/-- C2: calling `join_registered` twice with the same (session, user) pair
returns the same result both times with the database unchanged by the second
call, and across the two calls at most one participant row is created — when
one is, it is the user's row and the returned `participant_id` is its id (so
the second call performs no capacity check and adds no row even at
`max_participants`). -/
theorem C2_join_registered_idempotent (db : JoinDB) (passcode : String)
    (user_id : Nat) (r1 : JoinResult) (db1 : JoinDB)
    (h : SessionJoinService.join_registered db passcode user_id =
      Except.ok (r1, db1)) :
    SessionJoinService.join_registered db1 passcode user_id =
      Except.ok (r1, db1) ∧
    (db1.participants = db.participants ∨
      ∃ p : Participant, db1.participants = db.participants ++ [p] ∧
        p.user_id = some user_id ∧ r1.participant_id = p.id) := by
  unfold SessionJoinService.join_registered at h
  split at h
  · exact absurd h (by simp)
  rename_i session hsess
  dsimp only at h
  split at h
  · exact absurd h (by simp)
  rename_i hstop
  split at h
  · exact absurd h (by simp)
  rename_i hmode
  split at h
  · exact absurd h (by simp)
  rename_i user huser
  try dsimp only at h
  split at h
  case _ existing hex =>
    injection h with h2
    injection h2 with hr hdb
    subst hdb
    constructor
    · unfold SessionJoinService.join_registered
      rw [hsess]
      dsimp only
      rw [if_neg hstop, if_neg hmode, huser]
      dsimp only
      rw [hex]
      dsimp only
      rw [hr]
    · exact Or.inl rfl
  case _ hnone =>
    split at h
    · exact absurd h (by simp)
    rename_i hcap
    dsimp only [SessionParticipantRepository.create] at h
    injection h with h2
    injection h2 with hr hdb
    have hsess1 : SessionRepositoryJoin.get_by_passcode db1 passcode =
        some session := by rw [← hdb]; exact hsess
    have huser1 : UserRepository.get_by_id db1 user_id = some user := by
      rw [← hdb]; exact huser
    have hpart : db1.participants = db.participants ++
        [{ id := db.next_participant_id, session_id := session.id,
           participant_type := "user", user_id := some user_id,
           guest_email := none,
           display_name := SessionJoinService.registered_display_name user,
           anonymous_slug := none }] := by rw [← hdb]
    have hfind1 : SessionParticipantRepository.get_by_session_and_user db1
        session.id user_id = some
        { id := db.next_participant_id, session_id := session.id,
          participant_type := "user", user_id := some user_id,
          guest_email := none,
          display_name := SessionJoinService.registered_display_name user,
          anonymous_slug := none } := by
      unfold SessionParticipantRepository.get_by_session_and_user
      rw [hpart, List.find?_append]
      have hnone' : db.participants.find? (fun p =>
          p.session_id == session.id && p.user_id == some user_id &&
          p.is_deleted == false) = none := hnone
      rw [hnone']
      simp
    constructor
    · unfold SessionJoinService.join_registered
      rw [hsess1]
      dsimp only
      rw [if_neg hstop, if_neg hmode, huser1]
      dsimp only
      rw [hfind1]
      dsimp only
      rw [py_str_or_registered_self, hr]
    · refine Or.inr ⟨_, hpart, rfl, ?_⟩
      rw [← hr]

/-- Concrete database for the C2 witness: a registered-mode session with no
participants and one user. -/
def c2_wit_db : JoinDB :=
  { sessions := [{ id := 1, workspace_id := 1, passcode := some "ABCDEF",
                   is_stopped := false,
                   settings := { participant_entry_mode := some "registered" } }],
    users := [{ id := 7, email := "ada@example.com" }],
    participants := [],
    next_participant_id := 1 }

/-- The row created by the first join in the C2 witness scenario. -/
def c2_wit_p : Participant :=
  { id := 1, session_id := 1, participant_type := "user", user_id := some 7,
    display_name := some "ada@example.com" }

/-- The database after the first join in the C2 witness scenario. -/
def c2_wit_db1 : JoinDB :=
  { c2_wit_db with participants := [c2_wit_p], next_participant_id := 2 }

/-- The result of the first join in the C2 witness scenario. -/
def c2_wit_r1 : JoinResult :=
  { participant_id := 1, session_id := 1,
    display_name := some "ada@example.com" }

theorem C2_join_registered_idempotent_witness :
    SessionJoinService.join_registered c2_wit_db1 "ABCDEF" 7 =
      Except.ok (c2_wit_r1, c2_wit_db1) ∧
    (c2_wit_db1.participants = c2_wit_db.participants ∨
      ∃ p : Participant, c2_wit_db1.participants = c2_wit_db.participants ++ [p] ∧
        p.user_id = some 7 ∧ c2_wit_r1.participant_id = p.id) :=
  C2_join_registered_idempotent c2_wit_db "ABCDEF" 7 c2_wit_r1 c2_wit_db1
    (by decide)

/-- The same participants table with every row's `last_heartbeat_at` replaced
arbitrarily — used to state that capacity counting ignores heartbeats. -/
def heartbeats_mapped (db : JoinDB) (g : Participant → Option Int) : JoinDB :=
  { db with
    participants := db.participants.map
      (fun p => { p with last_heartbeat_at := g p }) }

/-- C3: for a registered-mode session whose effective settings set
`max_participants = N`, a join that would create a new participant fails with
the capacity error when the count of non-deleted participant rows is at least
N, succeeds when the count is N - 1 bringing the count to N, and the count is
the total over non-deleted rows — changing every row's `last_heartbeat_at`
arbitrarily never changes it. -/
theorem C3_capacity_enforcement (db : JoinDB) (passcode : String)
    (user_id : Nat) (session : SessionRow) (user : User) (N : Int)
    (hsess : SessionRepositoryJoin.get_by_passcode db passcode = some session)
    (hstop : session.is_stopped = false)
    (hmode : session.settings.participant_entry_mode = some "registered")
    (hmax : session.settings.max_participants = some N)
    (huser : UserRepository.get_by_id db user_id = some user)
    (hnew : SessionParticipantRepository.get_by_session_and_user db session.id
      user_id = none) :
    (((SessionParticipantRepository.get_by_session_id db session.id).length : Int)
        ≥ N →
      SessionJoinService.join_registered db passcode user_id =
        Except.error "Maximum participants reached") ∧
    (((SessionParticipantRepository.get_by_session_id db session.id).length : Int)
        = N - 1 →
      ∃ r db1, SessionJoinService.join_registered db passcode user_id =
          Except.ok (r, db1) ∧
        ((SessionParticipantRepository.get_by_session_id db1 session.id).length
          : Int) = N) ∧
    (∀ g : Participant → Option Int,
      (SessionParticipantRepository.get_by_session_id (heartbeats_mapped db g)
        session.id).length =
      (SessionParticipantRepository.get_by_session_id db session.id).length) := by
  have hstop' : ¬(session.is_stopped = true) := by rw [hstop]; simp
  have hmode' :
      ¬(((SessionRepositoryJoin.get_settings session).participant_entry_mode.getD
        "anonymous" != "registered") = true) := by
    unfold SessionRepositoryJoin.get_settings
    rw [hmode]
    simp
  refine ⟨?_, ?_, ?_⟩
  · intro hge
    unfold SessionJoinService.join_registered
    rw [hsess]
    dsimp only
    rw [if_neg hstop', if_neg hmode', huser]
    dsimp only
    rw [hnew]
    dsimp only
    have hcap : SessionJoinService.check_max_participants db session.id
        (SessionRepositoryJoin.get_settings session) =
        Except.error "Maximum participants reached" := by
      unfold SessionJoinService.check_max_participants
        SessionRepositoryJoin.get_settings
      rw [hmax]
      dsimp only
      rw [if_pos hge]
    rw [hcap]
  · intro hlen
    have hcap : SessionJoinService.check_max_participants db session.id
        (SessionRepositoryJoin.get_settings session) = Except.ok () := by
      unfold SessionJoinService.check_max_participants
        SessionRepositoryJoin.get_settings
      rw [hmax]
      dsimp only
      rw [if_neg]
      rw [hlen]
      omega
    unfold SessionJoinService.join_registered
    rw [hsess]
    dsimp only
    rw [if_neg hstop', if_neg hmode', huser]
    dsimp only
    rw [hnew]
    dsimp only
    rw [hcap]
    dsimp only
    refine ⟨_, _, rfl, ?_⟩
    unfold SessionParticipantRepository.get_by_session_id
      SessionParticipantRepository.create
    dsimp only
    rw [List.filter_append]
    have hkeep : List.filter (fun p : Participant =>
        p.session_id == session.id && p.is_deleted == false)
        [{ id := db.next_participant_id, session_id := session.id,
           participant_type := "user", user_id := some user_id,
           guest_email := none,
           display_name := SessionJoinService.registered_display_name user,
           anonymous_slug := none }] =
        [{ id := db.next_participant_id, session_id := session.id,
           participant_type := "user", user_id := some user_id,
           guest_email := none,
           display_name := SessionJoinService.registered_display_name user,
           anonymous_slug := none }] := by simp
    rw [hkeep, List.length_append]
    have hlen' : ((List.filter (fun p : Participant =>
        p.session_id == session.id && p.is_deleted == false)
        db.participants).length : Int) = N - 1 := hlen
    simp only [List.length_cons, List.length_nil]
    push_cast
    omega
  · intro g
    unfold SessionParticipantRepository.get_by_session_id heartbeats_mapped
    dsimp only
    rw [List.filter_map, List.length_map]
    rfl

/-- Concrete database for the C3 witness: a registered-mode session capped at
one participant, currently empty, and one user. -/
def c3_wit_db : JoinDB :=
  { sessions := [{ id := 4, workspace_id := 1, passcode := some "KLMNPQ",
                   is_stopped := false,
                   settings := { participant_entry_mode := some "registered",
                                 max_participants := some 1 } }],
    users := [{ id := 9, email := "grace@example.com" }],
    participants := [],
    next_participant_id := 1 }

theorem C3_capacity_enforcement_witness :
    (((SessionParticipantRepository.get_by_session_id c3_wit_db 4).length : Int)
        ≥ 1 →
      SessionJoinService.join_registered c3_wit_db "KLMNPQ" 9 =
        Except.error "Maximum participants reached") ∧
    (((SessionParticipantRepository.get_by_session_id c3_wit_db 4).length : Int)
        = 1 - 1 →
      ∃ r db1, SessionJoinService.join_registered c3_wit_db "KLMNPQ" 9 =
          Except.ok (r, db1) ∧
        ((SessionParticipantRepository.get_by_session_id db1 4).length : Int)
          = 1) ∧
    (∀ g : Participant → Option Int,
      (SessionParticipantRepository.get_by_session_id
        (heartbeats_mapped c3_wit_db g) 4).length =
      (SessionParticipantRepository.get_by_session_id c3_wit_db 4).length) :=
  C3_capacity_enforcement c3_wit_db "KLMNPQ" 9
    { id := 4, workspace_id := 1, passcode := some "KLMNPQ",
      is_stopped := false,
      settings := { participant_entry_mode := some "registered",
                    max_participants := some 1 } }
    { id := 9, email := "grace@example.com" } 1
    (by decide) rfl rfl rfl (by decide) rfl

/-! ## C6, C8: services/session_questions_service.py -/

/-- models/session_question_message.py (fields used by the claims). -/
structure QuestionMessage where
  id : Nat
  session_module_id : Nat
  participant_id : Nat
  content : String
  parent_id : Option Nat := none
  likes_count : Int := 0
  is_answered : Bool := false
  pinned_at : Option Int := none
  is_anonymous : Bool := false
  is_deleted : Bool := false
  created_at : Int := 0
deriving DecidableEq

/-- The tables touched by the Questions module; messages are appended in
creation order and `next_message_id` models the autoincrement key. -/
structure QuestionsDB where
  sessions : List SessionRow
  modules : List SessionModule
  messages : List QuestionMessage
  next_message_id : Nat
deriving DecidableEq

namespace SessionRepositoryQuestions

/-- Modelled from the spec: `SessionRepository.get_by_passcode` is declared
by its callers but missing from the sources; the spec says lookups go by the
unique passcode and soft-deleted sessions are not reachable. -/
def get_by_passcode (db : QuestionsDB) (passcode : String) : Option SessionRow :=
  db.sessions.find? (fun s => s.passcode == some passcode && s.is_deleted == false)

end SessionRepositoryQuestions

namespace SessionQuestionMessageRepository

/-- `count_top_level_by_module` (lines 55-61): non-deleted top-level
messages of the module. -/
def count_top_level_by_module (db : QuestionsDB) (session_module_id : Nat) :
    Nat :=
  (db.messages.filter (fun m =>
    m.session_module_id == session_module_id && m.is_deleted == false &&
    m.parent_id == none)).length

/-- `get_last_by_participant_in_module` (lines 64-72):
`ORDER BY created_at DESC ... first()`, modelled as a scan keeping the row
with the greatest `created_at`. -/
def get_last_by_participant_in_module (db : QuestionsDB)
    (session_module_id participant_id : Nat) : Option QuestionMessage :=
  (db.messages.filter (fun m =>
    m.session_module_id == session_module_id &&
    m.participant_id == participant_id && m.is_deleted == false)).foldl
    (fun acc m =>
      match acc with
      | none => some m
      | some a => if m.created_at > a.created_at then some m else some a) none

/-- `create` (lines 75-92): append the new row; `created_at` is the commit
time `now`. -/
def create (db : QuestionsDB) (session_module_id participant_id : Nat)
    (content : String) (parent_id : Option Nat) (now : Int) :
    QuestionMessage × QuestionsDB :=
  let m : QuestionMessage :=
    { id := db.next_message_id, session_module_id := session_module_id,
      participant_id := participant_id, content := content,
      parent_id := parent_id, created_at := now }
  (m, { db with
          messages := db.messages ++ [m]
          next_message_id := db.next_message_id + 1 })

end SessionQuestionMessageRepository

namespace SessionQuestionsService

/-- `_validate_questions_module` (lines 38-48). -/
def validate_questions_module (db : QuestionsDB)
    (session_module_id session_id : Nat) : Except String SessionModule :=
  match SessionModuleRepo.get_by_id
      { sessions := db.sessions, modules := db.modules } session_module_id with
  | none => Except.error "Module not found"
  | some m =>
      if m.is_deleted then Except.error "Module not found"
      else if m.session_id != session_id then
        Except.error "Module not in this session"
      else if m.module_type != "questions" then
        Except.error "Module is not a Questions module"
      else Except.ok m

/-- `create_message` (lines 83-131); `now` is `datetime.now(timezone.utc)`
of the call (used by the cooldown check and as the new row's `created_at`),
and Python `(content or "").strip()` is `py_strip` on the non-optional
string. -/
def create_message (db : QuestionsDB) (now : Int) (passcode : String)
    (module_id participant_id : Nat) (content : String)
    (parent_id : Option Nat) : Except String (QuestionMessage × QuestionsDB) :=
  match SessionRepositoryQuestions.get_by_passcode db passcode with
  | none => Except.error "Session not found"
  | some session =>
    match validate_questions_module db module_id session.id with
    | Except.error e => Except.error e
    | Except.ok m =>
      let opts := get_questions_settings m.settings
      let content := py_strip content
      if content == "" then Except.error "Content is required"
      else
        let max_len := get_questions_max_length opts
        if (content.length : Int) > max_len then
          Except.error ("Message exceeds maximum length (" ++
            toString max_len ++ " characters)")
        else if parent_id.isSome && !opts.allow_participant_answers then
          Except.error "Participant answers are disabled for this module"
        else
          let count_ok : Except String Unit :=
            match parent_id, opts.max_questions_total with
            | none, some mq =>
                if ((SessionQuestionMessageRepository.count_top_level_by_module
                    db module_id : Nat) : Int) ≥ mq then
                  Except.error "Maximum number of questions reached"
                else Except.ok ()
            | _, _ => Except.ok ()
          match count_ok with
          | Except.error e => Except.error e
          | Except.ok _ =>
            let cooldown_ok : Except String Unit :=
              if opts.cooldown_enabled && opts.cooldown_seconds > 0 then
                match SessionQuestionMessageRepository.get_last_by_participant_in_module
                    db module_id participant_id with
                | some last =>
                    if now - last.created_at < opts.cooldown_seconds then
                      Except.error ("Please wait " ++
                        toString (opts.cooldown_seconds - (now - last.created_at)) ++
                        " seconds before posting again")
                    else Except.ok ()
                | none => Except.ok ()
              else Except.ok ()
            match cooldown_ok with
            | Except.error e => Except.error e
            | Except.ok _ =>
                Except.ok (SessionQuestionMessageRepository.create db module_id
                  participant_id content parent_id now)

end SessionQuestionsService

/-- The Questions length limits as the spec states them: compact 100,
moderate 250, extended 500 characters, unknown modes falling back to the
moderate limit. -/
def spec_length_limit (mode : String) : Int :=
  if mode = "compact" then 100
  else if mode = "moderate" then 250
  else if mode = "extended" then 500
  else 250

/-- The create-message pipeline as the spec words it: module must exist,
belong to the session and be of type questions; trim and reject empty
content; reject content longer than the resolved limit; a reply is rejected
unless `allow_participant_answers`; a top-level message is accepted against
`max_questions_total` only while the count of non-deleted top-level messages
is below it; with cooldown enabled and a positive `cooldown_seconds`, the
participant's most recent message must be at least `cooldown_seconds` old,
the error reporting the remaining wait; every check failure raises with no
message created, and success stores exactly the trimmed content. -/
def create_message_spec (db : QuestionsDB) (now : Int) (passcode : String)
    (module_id participant_id : Nat) (content : String)
    (parent_id : Option Nat) : Except String (QuestionMessage × QuestionsDB) :=
  match SessionRepositoryQuestions.get_by_passcode db passcode with
  | none => Except.error "Session not found"
  | some session =>
    match SessionModuleRepo.get_by_id
        { sessions := db.sessions, modules := db.modules } module_id with
    | none => Except.error "Module not found"
    | some m =>
      if m.is_deleted then Except.error "Module not found"
      else if m.session_id != session.id then
        Except.error "Module not in this session"
      else if m.module_type != "questions" then
        Except.error "Module is not a Questions module"
      else
        let raw : RawQuestionsSettings :=
          match m.settings with
          | some (ModuleSettingsVal.questionsSettings q) => q
          | _ => {}
        let mode := raw.length_limit_mode.getD "moderate"
        let c := py_strip content
        if c == "" then Except.error "Content is required"
        else if (c.length : Int) > spec_length_limit mode then
          Except.error ("Message exceeds maximum length (" ++
            toString (spec_length_limit mode) ++ " characters)")
        else if parent_id.isSome && !(raw.allow_participant_answers.getD true) then
          Except.error "Participant answers are disabled for this module"
        else
          let count_ok : Except String Unit :=
            match parent_id, raw.max_questions_total with
            | none, some mq =>
                if ((SessionQuestionMessageRepository.count_top_level_by_module
                    db module_id : Nat) : Int) < mq then Except.ok ()
                else Except.error "Maximum number of questions reached"
            | _, _ => Except.ok ()
          match count_ok with
          | Except.error e => Except.error e
          | Except.ok _ =>
            let cooldown_ok : Except String Unit :=
              if raw.cooldown_enabled.getD false &&
                  raw.cooldown_seconds.getD 30 > 0 then
                match SessionQuestionMessageRepository.get_last_by_participant_in_module
                    db module_id participant_id with
                | some last =>
                    if now - last.created_at ≥ raw.cooldown_seconds.getD 30 then
                      Except.ok ()
                    else
                      Except.error ("Please wait " ++
                        toString (raw.cooldown_seconds.getD 30 -
                          (now - last.created_at)) ++
                        " seconds before posting again")
                | none => Except.ok ()
              else Except.ok ()
            match cooldown_ok with
            | Except.error e => Except.error e
            | Except.ok _ =>
                Except.ok (SessionQuestionMessageRepository.create db module_id
                  participant_id c parent_id now)

/-- A guard written `a >= b ? x : y` is the same as `a < b ? y : x`. -/
lemma iteGeFlip {α : Type} (a b : Int) (x y : α) :
    (if a ≥ b then x else y) = if a < b then y else x := by
  split_ifs with h1 h2 h2
  · omega
  · rfl
  · rfl
  · omega

/-- C6: `create_message` is extensionally equal to the spec's ordered
validation pipeline (module checks, then trimmed-content emptiness, then the
resolved length limit, then the reply permission, then the top-level
quota, then the cooldown with its remaining-wait error), and every
successful call appends exactly the one returned message to the table. -/
theorem C6_create_message_order :
    (∀ db now passcode module_id participant_id content parent_id,
      SessionQuestionsService.create_message db now passcode module_id
        participant_id content parent_id =
      create_message_spec db now passcode module_id participant_id content
        parent_id) ∧
    (∀ db now passcode module_id participant_id content parent_id m1 db1,
      SessionQuestionsService.create_message db now passcode module_id
        participant_id content parent_id = Except.ok (m1, db1) →
      db1.messages = db.messages ++ [m1]) := by
  constructor
  · intro db now passcode module_id participant_id content parent_id
    unfold SessionQuestionsService.create_message create_message_spec
      SessionQuestionsService.validate_questions_module get_questions_settings
      get_questions_max_length questions_length_limit spec_length_limit
    cases SessionRepositoryQuestions.get_by_passcode db passcode with
    | none => rfl
    | some session =>
      cases SessionModuleRepo.get_by_id
          { sessions := db.sessions, modules := db.modules } module_id with
      | none => rfl
      | some m =>
        dsimp only
        by_cases h1 : m.is_deleted = true
        · simp only [if_pos h1]
        · simp only [if_neg h1]
          by_cases h2 : (m.session_id != session.id) = true
          · simp only [if_pos h2]
          · simp only [if_neg h2]
            by_cases h3 : (m.module_type != "questions") = true
            · simp only [if_pos h3]
            · simp only [if_neg h3]
              try dsimp only
              simp only [iteGeFlip]
  · intro db now passcode module_id participant_id content parent_id m1 db1 h
    unfold SessionQuestionsService.create_message at h
    split at h
    · exact absurd h (by simp)
    rename_i session hs
    split at h
    · exact absurd h (by simp)
    rename_i m hv
    try dsimp only at h
    split at h
    · exact absurd h (by simp)
    rename_i hc
    split at h
    · exact absurd h (by simp)
    rename_i hl
    split at h
    · exact absurd h (by simp)
    rename_i hp
    split at h
    · exact absurd h (by simp)
    rename_i u hcount
    split at h
    · exact absurd h (by simp)
    rename_i u2 hcool
    dsimp only [SessionQuestionMessageRepository.create] at h
    injection h with h2
    injection h2 with hm hdb
    rw [← hdb]
    dsimp only
    rw [hm]

/-- Concrete database for the C6 witness: one session with one questions
module holding default settings and no messages yet. -/
def c6_wit_db : QuestionsDB :=
  { sessions := [{ id := 2, workspace_id := 1, passcode := some "QWERTY",
                   is_stopped := false }],
    modules := [{ id := 3, session_id := 2, module_type := "questions" }],
    messages := [],
    next_message_id := 1 }

/-- The message created in the C6 witness scenario (content trimmed). -/
def c6_wit_msg : QuestionMessage :=
  { id := 1, session_module_id := 3, participant_id := 5,
    content := "hello", created_at := 100 }

/-- The database after the C6 witness call. -/
def c6_wit_db1 : QuestionsDB :=
  { c6_wit_db with messages := [c6_wit_msg], next_message_id := 2 }

theorem C6_create_message_order_witness :
    c6_wit_db1.messages = c6_wit_db.messages ++ [c6_wit_msg] :=
  C6_create_message_order.2 c6_wit_db 100 "QWERTY" 3 5 " hello " none
    c6_wit_msg c6_wit_db1 (by decide)

/-! ## C8: questions listing order -/

/-- `pinned_at DESC NULLS LAST`: strictly earlier in the pinned key. -/
def pinned_cmp_lt (a b : QuestionMessage) : Bool :=
  match a.pinned_at, b.pinned_at with
  | some x, some y => decide (y < x)
  | some _, none => true
  | none, some _ => false
  | none, none => false

/-- Equal in the pinned key. -/
def pinned_cmp_eq (a b : QuestionMessage) : Bool :=
  match a.pinned_at, b.pinned_at with
  | some x, some y => decide (x = y)
  | none, none => true
  | _, _ => false

/-- The ORDER BY of `list_by_module` (lines 38-42) as a total preorder:
`desc(pinned_at).nulls_last()`, then `desc(likes_count)`, then
`created_at` ascending. -/
def question_le (a b : QuestionMessage) : Bool :=
  pinned_cmp_lt a b ||
    (pinned_cmp_eq a b &&
      (decide (b.likes_count < a.likes_count) ||
        (decide (a.likes_count = b.likes_count) &&
          decide (a.created_at ≤ b.created_at))))

/-- `question_le` as a relation. -/
def question_before (a b : QuestionMessage) : Prop := question_le a b = true

instance : DecidableRel question_before :=
  fun a b => inferInstanceAs (Decidable (question_le a b = true))

lemma question_le_total (a b : QuestionMessage) :
    question_before a b ∨ question_before b a := by
  unfold question_before question_le pinned_cmp_lt pinned_cmp_eq
  cases a.pinned_at <;> cases b.pinned_at <;> simp <;> omega

lemma question_le_trans (a b c : QuestionMessage)
    (h1 : question_before a b) (h2 : question_before b c) :
    question_before a c := by
  unfold question_before question_le pinned_cmp_lt pinned_cmp_eq at h1 h2 ⊢
  revert h1 h2
  cases a.pinned_at <;> cases b.pinned_at <;> cases c.pinned_at <;>
    simp <;> omega

instance : IsTotal QuestionMessage question_before := ⟨question_le_total⟩

instance : IsTrans QuestionMessage question_before := ⟨question_le_trans⟩

/-- The ORDER BY of `get_children` (line 52): `created_at` ascending. -/
def created_before (a b : QuestionMessage) : Prop :=
  a.created_at ≤ b.created_at

instance : DecidableRel created_before :=
  fun a b => Int.decLe a.created_at b.created_at

instance : IsTotal QuestionMessage created_before :=
  ⟨fun a b => Int.le_total a.created_at b.created_at⟩

instance : IsTrans QuestionMessage created_before :=
  ⟨fun _ _ _ h1 h2 => le_trans h1 h2⟩

namespace SessionQuestionMessageRepository

/-- `list_by_module` (lines 22-42): non-deleted top-level messages of the
module, ordered by the pinned/likes/created key, with SQL OFFSET applied
before LIMIT; ordering is modelled by a sort with the ORDER BY preorder. -/
def list_by_module (db : QuestionsDB) (session_module_id : Nat)
    (limit : Nat) (offset : Nat) : List QuestionMessage :=
  (((db.messages.filter (fun m =>
      m.session_module_id == session_module_id && m.is_deleted == false &&
      m.parent_id == none)).insertionSort question_before).drop offset).take
    limit

/-- `get_children` (lines 45-52): non-deleted replies of a parent, ordered
by `created_at`. -/
def get_children (db : QuestionsDB) (parent_id : Nat) : List QuestionMessage :=
  List.insertionSort created_before (db.messages.filter (fun m =>
    m.parent_id == some parent_id && m.is_deleted == false))

end SessionQuestionMessageRepository

/-- The messages part of `list_messages`'s response together with the
settings echoed back (lines 73-81). -/
structure QuestionsListing where
  messages : List (QuestionMessage × List QuestionMessage)
  likes_enabled : Bool
  allow_participant_answers : Bool
  length_limit_mode : String
  max_length : Int
deriving DecidableEq

namespace SessionQuestionsService

/-- `list_messages` (lines 50-81): session by passcode, module validation,
then the ordered top-level messages each paired with its reply list. -/
def list_messages (db : QuestionsDB) (passcode : String) (module_id : Nat)
    (limit : Nat) (offset : Nat) : Except String QuestionsListing :=
  match SessionRepositoryQuestions.get_by_passcode db passcode with
  | none => Except.error "Session not found"
  | some session =>
    match validate_questions_module db module_id session.id with
    | Except.error e => Except.error e
    | Except.ok m =>
      let opts := get_questions_settings m.settings
      let msgs := SessionQuestionMessageRepository.list_by_module db module_id
        limit offset
      Except.ok
        { messages := msgs.map (fun msg =>
            (msg, SessionQuestionMessageRepository.get_children db msg.id)),
          likes_enabled := opts.likes_enabled,
          allow_participant_answers := opts.allow_participant_answers,
          length_limit_mode := opts.length_limit_mode,
          max_length := get_questions_max_length opts }

end SessionQuestionsService

/-- Scenario message A: 2 likes. -/
def c8_A : QuestionMessage :=
  { id := 1, session_module_id := 1, participant_id := 1, content := "A",
    likes_count := 2, created_at := 30 }

/-- Scenario message B: 5 likes, created after C. -/
def c8_B : QuestionMessage :=
  { id := 2, session_module_id := 1, participant_id := 1, content := "B",
    likes_count := 5, created_at := 20 }

/-- Scenario message C: 5 likes, created before B. -/
def c8_C : QuestionMessage :=
  { id := 3, session_module_id := 1, participant_id := 2, content := "C",
    likes_count := 5, created_at := 10 }

/-- A reply to B (must not appear top-level; attached as B's child). -/
def c8_reply : QuestionMessage :=
  { id := 4, session_module_id := 1, participant_id := 2,
    content := "reply to B", parent_id := some 2, created_at := 25 }

/-- A soft-deleted message (must not appear at all). -/
def c8_deleted : QuestionMessage :=
  { id := 5, session_module_id := 1, participant_id := 1, content := "gone",
    likes_count := 99, is_deleted := true, created_at := 5 }

/-- The C8 scenario database. -/
def c8_db : QuestionsDB :=
  { sessions := [{ id := 1, workspace_id := 1, passcode := some "ABCXYZ",
                   is_stopped := false }],
    modules := [{ id := 1, session_id := 1, module_type := "questions" }],
    messages := [c8_A, c8_B, c8_reply, c8_C, c8_deleted],
    next_message_id := 6 }

/-- C8: listing a questions module returns only top-level non-deleted
messages, sorted by the pinned-first/likes-desc/created-asc preorder and
forming exactly the set of top-level non-deleted messages of the module;
replies are the non-deleted children sorted by creation time and are
attached to each returned message; and in the scenario with likes A:2, B:5,
C:5 where C was created before B and none pinned, the order is [C, B, A]. -/
theorem C8_questions_listing_order :
    (∀ db module_id limit offset,
      (SessionQuestionMessageRepository.list_by_module db module_id limit
        offset).Sorted question_before) ∧
    (∀ db module_id,
      (SessionQuestionMessageRepository.list_by_module db module_id
          db.messages.length 0).Perm
        (db.messages.filter (fun m =>
          m.session_module_id == module_id && m.is_deleted == false &&
          m.parent_id == none))) ∧
    (∀ db pid,
      (SessionQuestionMessageRepository.get_children db pid).Sorted
        created_before ∧
      (SessionQuestionMessageRepository.get_children db pid).Perm
        (db.messages.filter (fun m =>
          m.parent_id == some pid && m.is_deleted == false))) ∧
    (∀ db passcode module_id limit offset session m,
      SessionRepositoryQuestions.get_by_passcode db passcode = some session →
      SessionQuestionsService.validate_questions_module db module_id
        session.id = Except.ok m →
      ∃ L, SessionQuestionsService.list_messages db passcode module_id limit
          offset = Except.ok L ∧
        L.messages = (SessionQuestionMessageRepository.list_by_module db
          module_id limit offset).map (fun msg =>
            (msg, SessionQuestionMessageRepository.get_children db msg.id))) ∧
    SessionQuestionMessageRepository.list_by_module c8_db 1 100 0 =
      [c8_C, c8_B, c8_A] := by
  refine ⟨?_, ?_, ?_, ?_, ?_⟩
  · intro db module_id limit offset
    unfold SessionQuestionMessageRepository.list_by_module
    exact List.Pairwise.sublist
      ((List.take_sublist _ _).trans (List.drop_sublist _ _))
      (List.sorted_insertionSort question_before _)
  · intro db module_id
    unfold SessionQuestionMessageRepository.list_by_module
    rw [List.drop_zero, List.take_of_length_le]
    · exact List.perm_insertionSort question_before _
    · calc (List.insertionSort question_before (db.messages.filter (fun m =>
            m.session_module_id == module_id && m.is_deleted == false &&
            m.parent_id == none))).length
          = (db.messages.filter (fun m =>
            m.session_module_id == module_id && m.is_deleted == false &&
            m.parent_id == none)).length :=
            (List.perm_insertionSort question_before _).length_eq
        _ ≤ db.messages.length := List.length_filter_le _ _
  · intro db pid
    exact ⟨List.sorted_insertionSort created_before _,
      List.perm_insertionSort created_before _⟩
  · intro db passcode module_id limit offset session m hs hv
    unfold SessionQuestionsService.list_messages
    rw [hs]
    dsimp only
    rw [hv]
    exact ⟨_, rfl, rfl⟩
  · decide

theorem C8_questions_listing_order_witness :
    ∃ L, SessionQuestionsService.list_messages c8_db "ABCXYZ" 1 100 0 =
        Except.ok L ∧
      L.messages = (SessionQuestionMessageRepository.list_by_module c8_db 1
        100 0).map (fun msg =>
          (msg, SessionQuestionMessageRepository.get_children c8_db msg.id)) :=
  C8_questions_listing_order.2.2.2.1 c8_db "ABCXYZ" 1 100 0
    { id := 1, workspace_id := 1, passcode := some "ABCXYZ",
      is_stopped := false }
    { id := 1, session_id := 1, module_type := "questions" }
    (by decide) (by decide)

/-! ## C10: services/session_timer_service.py start -/

/-- The tables touched by the timer service. -/
structure TimerDB where
  workspaces : List Workspace
  sessions : List SessionRow
  modules : List SessionModule
  timer_states : List SessionModuleTimerState
deriving DecidableEq

/-- `_format_timer_response` (lines 22-29); the ISO string of `end_at` is
modelled by the timestamp itself. -/
structure TimerResponse where
  is_paused : Bool
  end_at : Option Int
  remaining_seconds : Option Int
  sound_notification_enabled : Bool
deriving DecidableEq

/-- `_format_timer_response` as a function of the optional state row. -/
def format_timer_response (state : Option SessionModuleTimerState)
    (opts : TimerOpts) : TimerResponse :=
  { is_paused := match state with | some st => st.is_paused | none => true,
    end_at := match state with | some st => st.end_at | none => none,
    remaining_seconds :=
      match state with | some st => st.remaining_seconds | none => none,
    sound_notification_enabled := opts.sound_notification_enabled }

/-- The stored `duration_seconds` key, `none` when the settings omit it
(absent key, non-timer settings value, or no settings at all). -/
def timer_duration_setting (s : Option ModuleSettingsVal) : Option Int :=
  match s with
  | some (ModuleSettingsVal.timerSettings t) => t.duration_seconds
  | _ => none

/-- Lines 80-82 of `start`, operating on the already-validated settings:
`duration = opts.get("duration_seconds") or 60; if duration <= 0: 60`
(`or` replaces the falsy 0, the `if` replaces the negatives; both are
unreachable for validated settings, whose stored durations are positive). -/
def start_duration (opts : TimerOpts) : Int :=
  let d0 := if opts.duration_seconds = 0 then 60 else opts.duration_seconds
  if d0 ≤ 0 then 60 else d0

namespace SessionTimerService

/-- `_check_lecturer_access` (lines 35-43). -/
def check_lecturer_access (db : TimerDB) (session_id user_id : Nat) :
    Except String Unit :=
  match SessionRepository.get_by_id
      { workspaces := db.workspaces, sessions := db.sessions } session_id with
  | none => Except.error "Session not found"
  | some session =>
      match WorkspaceRepository.get_by_id
          { workspaces := db.workspaces, sessions := db.sessions }
          session.workspace_id with
      | none => Except.error "Not authorized"
      | some w =>
          if w.user_id != user_id then Except.error "Not authorized"
          else Except.ok ()

/-- `_validate_timer_module` (lines 45-54). -/
def validate_timer_module (db : TimerDB) (session_module_id session_id : Nat) :
    Except String Unit :=
  match SessionModuleRepo.get_by_id
      { sessions := db.sessions, modules := db.modules } session_module_id with
  | none => Except.error "Module not found"
  | some m =>
      if m.is_deleted then Except.error "Module not found"
      else if m.session_id != session_id then
        Except.error "Module not in this session"
      else if m.module_type != "timer" then
        Except.error "Module is not a Timer module"
      else Except.ok ()

/-- `start` (lines 73-88): access check, module validation, duration
resolution (`start_duration`), repository start, then the formatted state
re-read from the table.  The `none` arm of the re-lookup is unreachable
after validation. -/
def start (db : TimerDB) (now : Int) (session_id user_id module_id : Nat) :
    Except String (TimerResponse × TimerDB) :=
  match check_lecturer_access db session_id user_id with
  | Except.error e => Except.error e
  | Except.ok _ =>
    match validate_timer_module db module_id session_id with
    | Except.error e => Except.error e
    | Except.ok _ =>
      match SessionModuleRepo.get_by_id
          { sessions := db.sessions, modules := db.modules } module_id with
      | none => Except.error "Module not found"
      | some m =>
        match get_timer_settings m.settings with
        | Except.error e => Except.error e
        | Except.ok opts =>
          let r := TimerRepo.start db.timer_states module_id now
            (start_duration opts)
          let db1 : TimerDB := { db with timer_states := r.2 }
          let state := TimerRepo.get_by_module db1.timer_states module_id
          Except.ok (format_timer_response state opts, db1)

end SessionTimerService

/-- Replacing the first matching row with a row that still matches makes it
what the lookup finds, provided some row matched before. -/
lemma find?_updateFirst_const {α : Type} (p : α → Bool) (y : α) (l : List α)
    (hmem : (l.find? p).isSome) (hy : p y = true) :
    (updateFirst p (fun _ => y) l).find? p = some y := by
  induction l with
  | nil => simp at hmem
  | cons x rest ih =>
      unfold updateFirst
      by_cases hx : p x = true
      · rw [if_pos hx]
        simp [List.find?_cons, hy]
      · rw [if_neg hx]
        rw [List.find?_cons_of_neg _ (by simpa using hx)]
        apply ih
        rw [List.find?_cons_of_neg _ (by simpa using hx)] at hmem
        exact hmem

lemma get_or_create_fst_id (states : List SessionModuleTimerState)
    (mid : Nat) : (TimerRepo.get_or_create states mid).1.session_module_id
      = mid := by
  unfold TimerRepo.get_or_create TimerRepo.get_by_module
  cases hf : states.find? (fun st => st.session_module_id == mid) with
  | none => rfl
  | some st =>
      have := List.find?_some hf
      simpa using this

lemma get_or_create_snd_found (states : List SessionModuleTimerState)
    (mid : Nat) : (((TimerRepo.get_or_create states mid).2).find?
      (fun st => st.session_module_id == mid)).isSome := by
  unfold TimerRepo.get_or_create TimerRepo.get_by_module
  cases hf : states.find? (fun st => st.session_module_id == mid) with
  | none =>
      dsimp only
      rw [List.find?_append, hf]
      simp
  | some st => simp [hf]

/-- After `TimerRepo.start`, the module's state row is the started one. -/
lemma get_by_module_start (states : List SessionModuleTimerState)
    (mid : Nat) (now d : Int) :
    TimerRepo.get_by_module (TimerRepo.start states mid now d).2 mid =
      some { (TimerRepo.get_or_create states mid).1 with
             end_at := some (now + d)
             remaining_seconds := none
             is_paused := false
             updated_at := now } := by
  unfold TimerRepo.start TimerRepo.get_by_module
  dsimp only
  apply find?_updateFirst_const
  · exact get_or_create_snd_found states mid
  · simpa using get_or_create_fst_id states mid

/-- The response of a timer started with the default 60-second duration. -/
def started_timer_response (now : Int) (sound : Bool) : TimerResponse :=
  { is_paused := false, end_at := some (now + 60), remaining_seconds := none,
    sound_notification_enabled := sound }

/-- Settings that omit `duration_seconds` pass validation and resolve to the
pydantic default 60. -/
lemma get_timer_settings_omitted (s : Option ModuleSettingsVal)
    (h : timer_duration_setting s = none) :
    ∃ opts, get_timer_settings s = Except.ok opts ∧
      opts.duration_seconds = 60 := by
  unfold timer_duration_setting at h
  cases s with
  | none => exact ⟨_, rfl, rfl⟩
  | some v =>
      cases v with
      | questionsSettings q => exact ⟨_, rfl, rfl⟩
      | timerSettings t =>
          dsimp only at h
          unfold get_timer_settings validate_timer_settings
          dsimp only
          rw [h]
          exact ⟨_, rfl, rfl⟩
      | otherSettings => exact ⟨_, rfl, rfl⟩

/-- A stored non-positive `duration_seconds` fails the `gt=0` validation. -/
lemma get_timer_settings_nonpos (s : Option ModuleSettingsVal) (d : Int)
    (h : timer_duration_setting s = some d) (hle : d ≤ 0) :
    get_timer_settings s = Except.error
      "validation error for TimerModuleSettings: duration_seconds must be greater than 0" := by
  unfold timer_duration_setting at h
  cases s with
  | none => simp at h
  | some v =>
      cases v with
      | questionsSettings q => simp at h
      | timerSettings t =>
          dsimp only at h
          unfold get_timer_settings validate_timer_settings
          dsimp only
          rw [h]
          rw [if_neg]
          dsimp only
          simp only [decide_eq_true_eq]
          omega
      | otherSettings => simp at h

/-- The line-80-82 resolution is the identity on the default. -/
lemma start_duration_of_default (opts : TimerOpts)
    (h : opts.duration_seconds = 60) : start_duration opts = 60 := by
  unfold start_duration
  rw [h]
  decide

/-- A timer module whose stored settings carry a non-positive duration. -/
def c10_cex_module : SessionModule :=
  { id := 2, session_id := 1, module_type := "timer",
    settings := some (ModuleSettingsVal.timerSettings
      { duration_seconds := some (-5) }) }

/-- Owned session whose timer module stores `duration_seconds = -5`. -/
def c10_cex_db : TimerDB :=
  { workspaces := [{ id := 1, user_id := 7, is_deleted := false }],
    sessions := [{ id := 1, workspace_id := 1, passcode := some "TIMERY",
                   is_stopped := false }],
    modules := [c10_cex_module],
    timer_states := [] }

/-- C10 counterexample: a stored non-positive `duration_seconds` is not
coerced to 60 — `get_timer_settings` (pydantic `model_validate` with `gt=0`)
raises before the coercion guards of lines 80-82 run, so `start` fails
instead of running a 60-second timer. -/
theorem C10_timer_start_counterexample :
    SessionTimerService.start c10_cex_db 50 1 7 2 =
      Except.error
        "validation error for TimerModuleSettings: duration_seconds must be greater than 0" := by
  decide

/-- C10 (amended): for a valid timer module whose settings omit
`duration_seconds`, settings validation succeeds and `start` runs the timer
for 60 seconds (`end_at = now + 60`, `is_paused = false`,
`remaining_seconds` null); the resolved duration is always positive; a
missing value resolves to the 60-second default; and a stored non-positive
`duration_seconds` fails pydantic validation, making `start` raise rather
than coerce it to 60. -/
theorem C10_timer_start_default_duration_amended :
    (∀ db now session_id user_id module_id m opts,
      SessionTimerService.check_lecturer_access db session_id user_id =
        Except.ok () →
      SessionTimerService.validate_timer_module db module_id session_id =
        Except.ok () →
      SessionModuleRepo.get_by_id
        { sessions := db.sessions, modules := db.modules } module_id =
        some m →
      timer_duration_setting m.settings = none →
      get_timer_settings m.settings = Except.ok opts →
      ∃ db1, SessionTimerService.start db now session_id user_id module_id =
        Except.ok (started_timer_response now
          opts.sound_notification_enabled, db1)) ∧
    (∀ opts, 0 < start_duration opts) ∧
    (∀ s, timer_duration_setting s = none →
      ∃ opts, get_timer_settings s = Except.ok opts ∧
        start_duration opts = 60) ∧
    (∀ s d, timer_duration_setting s = some d → d ≤ 0 →
      get_timer_settings s = Except.error
        "validation error for TimerModuleSettings: duration_seconds must be greater than 0") ∧
    (∀ db now session_id user_id module_id m d,
      SessionTimerService.check_lecturer_access db session_id user_id =
        Except.ok () →
      SessionTimerService.validate_timer_module db module_id session_id =
        Except.ok () →
      SessionModuleRepo.get_by_id
        { sessions := db.sessions, modules := db.modules } module_id =
        some m →
      timer_duration_setting m.settings = some d → d ≤ 0 →
      SessionTimerService.start db now session_id user_id module_id =
        Except.error
          "validation error for TimerModuleSettings: duration_seconds must be greater than 0") := by
  refine ⟨?_, ?_, ?_, ?_, ?_⟩
  · intro db now session_id user_id module_id m opts hacc hval hmod homit hopts
    unfold SessionTimerService.start
    rw [hacc]
    dsimp only
    rw [hval]
    dsimp only
    rw [hmod]
    dsimp only
    rw [hopts]
    dsimp only
    rw [get_by_module_start]
    unfold format_timer_response started_timer_response
    dsimp only
    have h60 : opts.duration_seconds = 60 := by
      obtain ⟨opts2, hok, hd⟩ := get_timer_settings_omitted m.settings homit
      rw [hopts] at hok
      injection hok with he
      rw [he]
      exact hd
    rw [start_duration_of_default opts h60]
    exact ⟨_, rfl⟩
  · intro opts
    unfold start_duration
    dsimp only
    split_ifs <;> omega
  · intro s h
    obtain ⟨opts, hok, hd⟩ := get_timer_settings_omitted s h
    exact ⟨opts, hok, start_duration_of_default opts hd⟩
  · intro s d h hle
    exact get_timer_settings_nonpos s d h hle
  · intro db now session_id user_id module_id m d hacc hval hmod hdur hle
    unfold SessionTimerService.start
    rw [hacc]
    dsimp only
    rw [hval]
    dsimp only
    rw [hmod]
    dsimp only
    rw [get_timer_settings_nonpos m.settings d hdur hle]

/-- Concrete database for the C10 witness: an owned session with one timer
module holding no settings and no timer state yet. -/
def c10_wit_db : TimerDB :=
  { workspaces := [{ id := 1, user_id := 7, is_deleted := false }],
    sessions := [{ id := 1, workspace_id := 1, passcode := some "TIMERX",
                   is_stopped := false }],
    modules := [{ id := 2, session_id := 1, module_type := "timer" }],
    timer_states := [] }

theorem C10_timer_start_default_duration_amended_witness :
    ∃ db1, SessionTimerService.start c10_wit_db 50 1 7 2 =
      Except.ok (started_timer_response 50 true, db1) :=
  C10_timer_start_default_duration_amended.1 c10_wit_db 50 1 7 2
    { id := 2, session_id := 1, module_type := "timer" }
    { duration_seconds := 60, sound_notification_enabled := true }
    (by decide) (by decide) (by decide) (by decide) (by decide)

end Classroom
